import Mathlib

/-!
A shallow embedding of the godasse deserialization engine
(package `deserialize`, with its `tags`, `shared`, `kvlist`, `json`,
`internal` and `validation` collaborators), translated from the Go source.

Modelling conventions:
* Go `reflect.Type` values are modelled by the inductive `Ty`; struct field
  lists are a mutual inductive `Fields` so that recursion over types is
  structural.  Interface implementations (Initializer, Validator,
  UnmarshalDict, TextUnmarshaler, json.Unmarshaler) are capability flags
  carried by struct types; the primitive and composite types of the fragment
  do not implement any of these interfaces, matching the concrete types the
  repository exercises.
* Go `any` / `shared.Value` runtime data is the inductive `GoValue`.
  JSON numbers are modelled as integers (`vint`); `vnull` models a wrapped
  Go `nil` (as produced by `encoding/json` for JSON null) and `vempty`
  models `internal.EmptyValue`.
* Errors are the inductive `DErr`: `emsg` is `fmt.Errorf` without `%w`,
  `ewrap` is `fmt.Errorf` with a `%w` suffix, `custom` is
  `deserialize.CustomDeserializerError`, and `validationE` is the
  validation error built by `validation.WrapError`.
* User-supplied hooks (Initialize, Validate, orMethod bodies) are
  functions supplied through an environment `Env`, so compiled plans stay
  plain first-order data.
-/

namespace Godasse

/-- The primitive kinds for which `shared.LookupParser` has a parser.
Only the kinds exercised by the claims are included; each behaves like the
corresponding `strconv` parser. -/
inductive ScalarKind where
  | bool
  | int
  | str
deriving DecidableEq, Repr

/-- Whether a Go interface is implemented with a value receiver or a
pointer receiver (`canInterface` distinguishes the two). -/
inductive Receiver where
  | byValue
  | byPtr
deriving DecidableEq, Repr

/-- Capability flags of a struct type: which interfaces the type (or its
pointer type) implements.  `none` means the interface is not implemented. -/
structure Caps where
  initCap : Option Receiver
  validatorCap : Option Receiver
  unmarshalDictCap : Option Receiver
  textUnmarshalerCap : Option Receiver
  jsonUnmarshalerCap : Option Receiver
deriving DecidableEq, Repr

/-- A struct type with no capabilities. -/
def Caps.none : Caps :=
  { initCap := Option.none, validatorCap := Option.none,
    unmarshalDictCap := Option.none, textUnmarshalerCap := Option.none,
    jsonUnmarshalerCap := Option.none }

/-- The reflected signature of a method, as inspected by
`makeOrMethodConstructor`: number of arguments, number of results, and the
two convertibility checks on the results. -/
structure MethodSig where
  numIn : Nat
  numOut : Nat
  out0Name : String
  out1Name : String
  out0Conv : Bool
  out1Conv : Bool
deriving DecidableEq, Repr

/-- Parsed field tags (the `tags.Tags` value after `tags.Parse`): an
association list from tag name to the list of strings stored for it.  The
tag reader itself is external to the core (spec section 1); fields carry
their already-parsed tags. -/
def Tags : Type := List (String × List String)

instance : DecidableEq Tags := by
  unfold Tags
  infer_instance

/-- `tags.Empty()`. -/
def Tags.empty : Tags := []

/-- Association-list lookup used by all tag accessors. -/
def Tags.lookup (tags : Tags) (key : String) : Option (List String) :=
  match tags with
  | [] => Option.none
  | (k, v) :: rest => if k = key then some v else Tags.lookup rest key

/-- `tags.Default()`: the raw `default` literal, if any. -/
def Tags.default (tags : Tags) : Option String :=
  match Tags.lookup tags ("default") with
  | Option.none => Option.none
  | some [] => Option.none
  | some (v :: _) => some v

/-- `tags.MethodName()`: the raw `orMethod` name, if any. -/
def Tags.methodName (tags : Tags) : Option String :=
  match Tags.lookup tags ("orMethod") with
  | Option.none => Option.none
  | some [] => Option.none
  | some (v :: _) => some v

/-- `tags.PublicFieldName(key)`: the renaming stored under the main tag
name (for instance `json`). -/
def Tags.publicFieldName (tags : Tags) (key : String) : Option String :=
  match Tags.lookup tags key with
  | Option.none => Option.none
  | some [] => Option.none
  | some (v :: _) => some v

/-- `tags.IsPreinitialized()`: `true` if the `initialized` tag is present. -/
def Tags.isPreinit (tags : Tags) : Bool :=
  (Tags.lookup tags ("initialized")).isSome

/-- `tags.IsFlattened()`: `true` if the `flatten` tag is present. -/
def Tags.isFlat (tags : Tags) : Bool :=
  (Tags.lookup tags ("flatten")).isSome

/-- Compile-time facts about one struct field other than its type:
its Go name, whether it is exported, whether it is an anonymous
(embedded) field, and its parsed tags. -/
structure FieldMeta where
  name : String
  exported : Bool
  anonymous : Bool
  tags : Tags
deriving DecidableEq

mutual
/-- A Go type, as walked through `reflect`.  `strct` carries the type
name, the declared fields in order, the capability flags and the method
table used to resolve `orMethod` names. -/
inductive Ty where
  | scalar (k : ScalarKind)
  | ptr (elem : Ty)
  | slice (elem : Ty)
  | array (n : Nat) (elem : Ty)
  | mapTy (stringKey : Bool) (elem : Ty)
  | strct (name : String) (fields : Fields) (caps : Caps)
      (methods : List (String × MethodSig))

/-- The field list of a struct type. -/
inductive Fields where
  | nil
  | cons (meta : FieldMeta) (ty : Ty) (rest : Fields)
end

mutual
/-- Structural equality of types, mirroring `reflect.Type` identity
(used by the kvlist driver `Exit` hook). -/
def tyBeq : Ty → Ty → Bool
  | Ty.scalar k, Ty.scalar k2 => k = k2
  | Ty.ptr e, Ty.ptr e2 => tyBeq e e2
  | Ty.slice e, Ty.slice e2 => tyBeq e e2
  | Ty.array n e, Ty.array n2 e2 => n = n2 && tyBeq e e2
  | Ty.mapTy s e, Ty.mapTy s2 e2 => s = s2 && tyBeq e e2
  | Ty.strct n f c m, Ty.strct n2 f2 c2 m2 =>
      n = n2 && fieldsBeq f f2 && c = c2 && m = m2
  | _, _ => false

/-- Structural equality of field lists. -/
def fieldsBeq : Fields → Fields → Bool
  | Fields.nil, Fields.nil => true
  | Fields.cons m t r, Fields.cons m2 t2 r2 =>
      m = m2 && tyBeq t t2 && fieldsBeq r r2
  | _, _ => false
end

instance : BEq Ty := ⟨tyBeq⟩

mutual
/-- A runtime value: both the wire data handed to a deserializer
(`shared.Value` contents) and the Go values under construction.
`vdict` is a JSON object / kvlist dictionary, `vempty` is
`internal.EmptyValue`, `vnull` a wrapped Go `nil`, `vptrNil` a nil
pointer and `vptr` a non-nil pointer. -/
inductive GoValue where
  | vbool (b : Bool)
  | vint (i : Int)
  | vstr (s : String)
  | vnull
  | vempty
  | vlist (elems : GoValues)
  | vdict (entries : GoDict)
  | vstruct (name : String) (fields : GoDict)
  | vptrNil
  | vptr (pointee : GoValue)

/-- A list of runtime values. -/
inductive GoValues where
  | nil
  | cons (v : GoValue) (rest : GoValues)

/-- An ordered association list of runtime values (object entries or
struct fields). -/
inductive GoDict where
  | nil
  | cons (key : String) (v : GoValue) (rest : GoDict)
end

mutual
/-- Boolean equality on values. -/
def gvBeq : GoValue → GoValue → Bool
  | GoValue.vbool b, GoValue.vbool b2 => b = b2
  | GoValue.vint i, GoValue.vint i2 => i = i2
  | GoValue.vstr s, GoValue.vstr s2 => s = s2
  | GoValue.vnull, GoValue.vnull => true
  | GoValue.vempty, GoValue.vempty => true
  | GoValue.vlist l, GoValue.vlist l2 => gvsBeq l l2
  | GoValue.vdict d, GoValue.vdict d2 => gdBeq d d2
  | GoValue.vstruct n f, GoValue.vstruct n2 f2 => n = n2 && gdBeq f f2
  | GoValue.vptrNil, GoValue.vptrNil => true
  | GoValue.vptr p, GoValue.vptr p2 => gvBeq p p2
  | _, _ => false

/-- Boolean equality on value lists. -/
def gvsBeq : GoValues → GoValues → Bool
  | GoValues.nil, GoValues.nil => true
  | GoValues.cons v r, GoValues.cons v2 r2 => gvBeq v v2 && gvsBeq r r2
  | _, _ => false

/-- Boolean equality on value dictionaries. -/
def gdBeq : GoDict → GoDict → Bool
  | GoDict.nil, GoDict.nil => true
  | GoDict.cons k v r, GoDict.cons k2 v2 r2 =>
      k = k2 && gvBeq v v2 && gdBeq r r2
  | _, _ => false
end

instance : BEq GoValue := ⟨gvBeq⟩

/-- A deserialization error.  `emsg` is a plain formatted error, `ewrap`
prepends a context prefix to a wrapped error (`fmt.Errorf` with `%w`),
`custom` is `CustomDeserializerError` (whose `Error()` is the wrapped
message), `validationE` the structured validation error. -/
inductive DErr where
  | emsg (s : String)
  | ewrap (pre : String) (inner : DErr)
  | custom (op : String) (structKind : String) (inner : DErr)
  | validationE (path : String) (cause : String)
deriving DecidableEq, Repr

/-- `errors.As(err, &validation.Error\x7b\x7d)`: walk the `Unwrap` chain
looking for a `validation.Error`. -/
def DErr.isValidation : DErr → Bool
  | DErr.emsg _ => false
  | DErr.ewrap _ inner => DErr.isValidation inner
  | DErr.custom _ _ inner => DErr.isValidation inner
  | DErr.validationE _ _ => true

/-- The user-facing message of an error (`err.Error()`).
Modelled from the spec for `validationE`: `validation.WrapError` is
declared in package `validation` but its body is not part of the source
tree; the repository test suite renders it as
`deserialized value <path> did not pass validation` followed by the
wrapped cause, which is the rendering used here. -/
def DErr.render : DErr → String
  | DErr.emsg s => s
  | DErr.ewrap pre inner => pre ++ DErr.render inner
  | DErr.custom _ _ inner => DErr.render inner
  | DErr.validationE path cause =>
      "deserialized value " ++ path ++ " did not pass validation\n\t * " ++ cause

/-! ### Scalar parsing (`shared.LookupParser` and `strconv`) -/

/-- `strconv.ParseBool`: accepts exactly the Go literals. -/
def goParseBool (s : String) : Except String GoValue :=
  if s = ("1") || s = ("t") || s = ("T") || s = ("TRUE") || s = ("true") || s = ("True") then
    Except.ok (GoValue.vbool true)
  else if s = ("0") || s = ("f") || s = ("F") || s = ("FALSE") || s = ("false") || s = ("False") then
    Except.ok (GoValue.vbool false)
  else
    Except.error ("strconv.ParseBool: parsing \"" ++ s ++ "\": invalid syntax")

/-- Digit-string to number, `none` when a character is not a digit or the
list is empty. -/
def goParseDigits : List Char → Option Nat
  | [] => Option.none
  | [c] => if c.isDigit then some (c.toNat - 48) else Option.none
  | c :: rest =>
      if c.isDigit then
        match goParseDigits rest with
        | some n => some ((c.toNat - 48) * 10 ^ rest.length + n)
        | Option.none => Option.none
      else Option.none

/-- `strconv.Atoi`: an optional sign followed by decimal digits.
Overflow of the 64-bit range is not modelled; the engine only parses
short default literals through this function. -/
def goAtoi (s : String) : Except String GoValue :=
  let fail := Except.error ("strconv.Atoi: parsing \"" ++ s ++ "\": invalid syntax")
  match s.data with
  | [] => fail
  | c :: rest =>
      if c = '-' then
        match goParseDigits rest with
        | some n => Except.ok (GoValue.vint (-(n : Int)))
        | Option.none => fail
      else if c = '+' then
        match goParseDigits rest with
        | some n => Except.ok (GoValue.vint (n : Int))
        | Option.none => fail
      else
        match goParseDigits (c :: rest) with
        | some n => Except.ok (GoValue.vint (n : Int))
        | Option.none => fail

/-- `shared.LookupParser`: the string parser for a primitive kind, if
the type has one.  String parsing is the identity, as in the source. -/
def lookupParser (t : Ty) : Option (String → Except String GoValue) :=
  match t with
  | Ty.scalar ScalarKind.bool => some goParseBool
  | Ty.scalar ScalarKind.int => some goAtoi
  | Ty.scalar ScalarKind.str => some (fun s => Except.ok (GoValue.vstr s))
  | _ => Option.none

/-! ### Type helpers (`typeName`, `reflect.Type.String`, zero values) -/

/-- `deserialize.typeName`: `typ.Name()` with the package path stripped.
Composite (unnamed) types have an empty name, as in `reflect`. -/
def typeName (t : Ty) : String :=
  match t with
  | Ty.scalar ScalarKind.bool => "bool"
  | Ty.scalar ScalarKind.int => "int"
  | Ty.scalar ScalarKind.str => "string"
  | Ty.ptr _ => ""
  | Ty.slice _ => ""
  | Ty.array _ _ => ""
  | Ty.mapTy _ _ => ""
  | Ty.strct name _ _ _ => name

/-- `reflect.Type.String()`, used by the kvlist driver error messages. -/
def tyGoString (t : Ty) : String :=
  match t with
  | Ty.scalar ScalarKind.bool => "bool"
  | Ty.scalar ScalarKind.int => "int"
  | Ty.scalar ScalarKind.str => "string"
  | Ty.ptr e => "*" ++ tyGoString e
  | Ty.slice e => "[]" ++ tyGoString e
  | Ty.array n e => "[" ++ toString n ++ "]" ++ tyGoString e
  | Ty.mapTy true e => "map[string]" ++ tyGoString e
  | Ty.mapTy false e => "map[int]" ++ tyGoString e
  | Ty.strct name _ _ _ => name

/-- `n` copies of a value, for zero arrays. -/
def gvReplicate (n : Nat) (v : GoValue) : GoValues :=
  match n with
  | 0 => GoValues.nil
  | Nat.succ m => GoValues.cons v (gvReplicate m v)

mutual
/-- `reflect.New(typ).Elem()`: the zero value of a type.  The zero slice
and zero map are modelled as their empty forms. -/
def zeroValue : Ty → GoValue
  | Ty.scalar ScalarKind.bool => GoValue.vbool false
  | Ty.scalar ScalarKind.int => GoValue.vint 0
  | Ty.scalar ScalarKind.str => GoValue.vstr ""
  | Ty.ptr _ => GoValue.vptrNil
  | Ty.slice _ => GoValue.vlist GoValues.nil
  | Ty.array n e => GoValue.vlist (gvReplicate n (zeroValue e))
  | Ty.mapTy _ _ => GoValue.vdict GoDict.nil
  | Ty.strct name fields _ _ => GoValue.vstruct name (zeroFields fields)

/-- Zero values of a field list. -/
def zeroFields : Fields → GoDict
  | Fields.nil => GoDict.nil
  | Fields.cons meta ty rest => GoDict.cons meta.name (zeroValue ty) (zeroFields rest)
end

/-! ### Value helpers (`shared.Value`, `shared.Dict`) -/

/-- `Value.AsDict()`: a dictionary view of a wire value.  A JSON value
wrapping Go `nil` yields an empty JSON object (driver `json.Value.AsDict`,
case `nil`), and `internal.EmptyValue` yields `internal.EmptyDict`. -/
def asDict (v : GoValue) : Option GoDict :=
  match v with
  | GoValue.vdict entries => some entries
  | GoValue.vnull => some GoDict.nil
  | GoValue.vempty => some GoDict.nil
  | _ => Option.none

/-- `Value.AsSlice()`: a sequence view of a wire value. -/
def asSlice (v : GoValue) : Option GoValues :=
  match v with
  | GoValue.vlist elems => some elems
  | _ => Option.none

/-- `Dict.Lookup`. -/
def dictLookup (d : GoDict) (key : String) : Option GoValue :=
  match d with
  | GoDict.nil => Option.none
  | GoDict.cons k v rest => if k = key then some v else dictLookup rest key

/-- `Dict.Keys`, in entry order (Go map iteration order is arbitrary;
the model fixes the insertion order). -/
def dictKeys (d : GoDict) : List String :=
  match d with
  | GoDict.nil => []
  | GoDict.cons k _ rest => k :: dictKeys rest

/-- Replace (or append) one field of a struct value under construction. -/
def dictSet (d : GoDict) (key : String) (v : GoValue) : GoDict :=
  match d with
  | GoDict.nil => GoDict.cons key v GoDict.nil
  | GoDict.cons k v0 rest =>
      if k = key then GoDict.cons k v rest else GoDict.cons k v0 (dictSet rest key v)

/-- `input == nil` on an `any` obtained from `Value.Interface()`:
both a wrapped Go `nil` and `internal.EmptyValue` unwrap to `nil`. -/
def isNilAny (v : GoValue) : Bool :=
  match v with
  | GoValue.vnull => true
  | GoValue.vempty => true
  | _ => false

/-- `reflect.Value.CanConvert` from the dynamic type of a wire value to a
target type.  JSON numbers (modelled by `vint`) convert to integer kinds;
no implicit conversion crosses kinds; a struct value converts exactly to
its own struct type; typed pointer values (arising from pre-initialized
slots) convert to pointer types. -/
def canConvert (v : GoValue) (t : Ty) : Bool :=
  match v, t with
  | GoValue.vbool _, Ty.scalar ScalarKind.bool => true
  | GoValue.vint _, Ty.scalar ScalarKind.int => true
  | GoValue.vstr _, Ty.scalar ScalarKind.str => true
  | GoValue.vstruct n _, Ty.strct n2 _ _ _ => n = n2
  | GoValue.vptrNil, Ty.ptr _ => true
  | GoValue.vptr _, Ty.ptr _ => true
  | _, _ => false

mutual
/-- `fmt` rendering of an `any` value (`%v`), used in
`invalid value at ..., got %v` messages. -/
def gvFormat : GoValue → String
  | GoValue.vbool true => "true"
  | GoValue.vbool false => "false"
  | GoValue.vint i => toString i
  | GoValue.vstr s => s
  | GoValue.vnull => "<nil>"
  | GoValue.vempty => "\x7b\x7d"
  | GoValue.vlist elems => "[" ++ gvsFormat elems ++ "]"
  | GoValue.vdict entries => "map[" ++ gdFormat entries ++ "]"
  | GoValue.vstruct _ fields => "\x7b" ++ gdFormat fields ++ "\x7d"
  | GoValue.vptrNil => "<nil>"
  | GoValue.vptr p => "&" ++ gvFormat p

/-- `fmt` rendering of a list of values. -/
def gvsFormat : GoValues → String
  | GoValues.nil => ""
  | GoValues.cons v GoValues.nil => gvFormat v
  | GoValues.cons v rest => gvFormat v ++ " " ++ gvsFormat rest

/-- `fmt` rendering of a dictionary. -/
def gdFormat : GoDict → String
  | GoDict.nil => ""
  | GoDict.cons k v GoDict.nil => k ++ ":" ++ gvFormat v
  | GoDict.cons k v rest => k ++ ":" ++ gvFormat v ++ " " ++ gdFormat rest
end

/-! ### Interface capability probing (`canInterface`, `initializationData`) -/

/-- Whether a type itself implements the interface selected by `get`:
a struct does when the capability uses a value receiver; a pointer to a
struct does whenever the struct has the capability at all (Go method
sets). -/
def tyImplements (t : Ty) (get : Caps → Option Receiver) : Bool :=
  match t with
  | Ty.strct _ _ caps _ => get caps = some Receiver.byValue
  | Ty.ptr (Ty.strct _ _ caps _) => (get caps).isSome
  | _ => false

/-- Whether the pointer type to `t` implements the interface selected by
`get`. -/
def ptrTyImplements (t : Ty) (get : Caps → Option Receiver) : Bool :=
  match t with
  | Ty.strct _ _ caps _ => (get caps).isSome
  | _ => false

/-- `deserialize.canInterface`: check that a type implements an interface
on pointers, rejecting value-receiver implementations. -/
def canInterface (t : Ty) (get : Caps → Option Receiver) (ifaceName : String) :
    Except DErr Bool :=
  if tyImplements t get then
    Except.error (DErr.emsg ("type " ++ tyGoString t ++ " implements " ++ ifaceName ++
      " - it should be implemented by pointer type *" ++ tyGoString t ++ " instead"))
  else if ptrTyImplements t get then
    Except.ok true
  else
    Except.ok false

/-- The deserialization driver in use (`jsonPkg.Driver` or
`kvlist.Driver`). -/
inductive DriverId where
  | json
  | kvlist
deriving DecidableEq, Repr

/-- `deserialize.innerOptions`. -/
structure InnerOptions where
  renamingTagName : String
  driver : DriverId
deriving DecidableEq, Repr

/-- The driver `ShouldUnmarshal` hook.  For JSON: the type is
convertible to a JSON dictionary, or its pointer type implements
`json.Unmarshaler` or `encoding.TextUnmarshaler`.  For kvlist: the type
is convertible to `KVList` (`map[string][]string`) or implements
`TextUnmarshaler` itself or through its pointer type.  In the embedded
fragment only struct capability flags and the `KVList` shape can make
this true. -/
def shouldUnmarshal (d : DriverId) (t : Ty) : Bool :=
  match d with
  | DriverId.json =>
      match t with
      | Ty.strct _ _ caps _ =>
          caps.jsonUnmarshalerCap.isSome || caps.textUnmarshalerCap.isSome
      | _ => false
  | DriverId.kvlist =>
      match t with
      | Ty.mapTy true (Ty.slice (Ty.scalar ScalarKind.str)) => true
      | Ty.strct _ _ caps _ => caps.textUnmarshalerCap.isSome
      | Ty.ptr (Ty.strct _ _ caps _) => caps.textUnmarshalerCap.isSome
      | _ => false

/-- `deserialize.initializationMetadata`. -/
structure InitMetadata where
  canInitSelf : Bool
  canDriverUnmarshal : Bool
  canUnmarshalFromDict : Bool
  willPreinit : Bool
deriving DecidableEq, Repr

/-- `deserialize.initializationData`: probe the capabilities of a type,
resolving conflicts exactly as the source does (Unmarshaler wins over
Initializer, UnmarshalDict wins over Unmarshaler), and reject
value-receiver `Validator` implementations. -/
def mkInitData (t : Ty) (options : InnerOptions) : Except DErr InitMetadata := do
  let canInitSelf0 ← canInterface t (fun c => c.initCap) ("validation.Initializer")
  let canDriverUnmarshal0 := shouldUnmarshal options.driver t
  let canUnmarshalFromDict ← canInterface t (fun c => c.unmarshalDictCap) ("shared.UnmarshalDict")
  let canInitSelf := if canInitSelf0 && canDriverUnmarshal0 then false else canInitSelf0
  let canDriverUnmarshal :=
    if canDriverUnmarshal0 && canUnmarshalFromDict then false else canDriverUnmarshal0
  let willPreinit := canInitSelf || canDriverUnmarshal || canUnmarshalFromDict
  let _ ← canInterface t (fun c => c.validatorCap) ("validation.Validator")
  Except.ok { canInitSelf := canInitSelf, canDriverUnmarshal := canDriverUnmarshal,
              canUnmarshalFromDict := canUnmarshalFromDict, willPreinit := willPreinit }

/-! ### The kvlist driver compile-time state machine (`Enter` / `Exit`) -/

/-- The mutable fields of the kvlist `driver` value, used while building
a deserializer. -/
structure KVState where
  enteredStructAt : Option Ty
  enteredSliceAt : Option Ty
  enteredLeafAt : Option Ty

/-- The initial kvlist driver state (`kvlist.Driver()`). -/
def KVState.start : KVState :=
  { enteredStructAt := Option.none, enteredSliceAt := Option.none,
    enteredLeafAt := Option.none }

/-- `kvlist.canBeALeaf`: primitive kinds, or types reaching
`TextUnmarshaler` directly or through their pointer type. -/
def canBeALeaf (t : Ty) : Bool :=
  match t with
  | Ty.scalar _ => true
  | Ty.strct _ _ caps _ => caps.textUnmarshalerCap.isSome
  | Ty.ptr (Ty.strct _ _ caps _) => caps.textUnmarshalerCap.isSome
  | _ => false

/-- Whether a type has pointer kind (ignored entirely by `Enter`/`Exit`). -/
def isPtrKind (t : Ty) : Bool :=
  match t with
  | Ty.ptr _ => true
  | _ => false

/-- Whether a type has array or slice kind. -/
def isSliceOrArrayKind (t : Ty) : Bool :=
  match t with
  | Ty.slice _ => true
  | Ty.array _ _ => true
  | _ => false

/-- Whether a type has struct kind. -/
def isStructKind (t : Ty) : Bool :=
  match t with
  | Ty.strct _ _ _ _ => true
  | _ => false

/-- `kvlist.driver.Enter`: enforce, while the deserializer is being
built, that a kvlist can only describe one struct of leaves or of slices
of leaves. -/
def kvEnter (st : KVState) (atPath : String) (t : Ty) : Except DErr KVState :=
  if isPtrKind t then
    Except.ok st
  else if st.enteredStructAt.isNone then
    if isStructKind t then
      Except.ok { st with enteredStructAt := some t }
    else
      Except.error (DErr.emsg ("KVList deserialization expects a struct, got " ++ tyGoString t))
  else if st.enteredSliceAt.isNone && st.enteredLeafAt.isNone then
    if canBeALeaf t then
      Except.ok { st with enteredLeafAt := some t }
    else if isSliceOrArrayKind t then
      Except.ok { st with enteredSliceAt := some t }
    else
      Except.error (DErr.emsg
        ("KVList deserialization expects a struct of slices of trivially deserializable types, but at "
          ++ atPath ++ ", got " ++ tyGoString t))
  else if st.enteredLeafAt.isNone && st.enteredSliceAt.isSome then
    if canBeALeaf t then
      Except.ok { st with enteredSliceAt := some t }
    else
      Except.error (DErr.emsg
        ("KVList deserialization expects a struct of slices of trivially deserializable types, but at "
          ++ atPath ++ ", got " ++ tyGoString t))
  else
    Except.ok st

/-- `kvlist.driver.Exit`: pop whichever register holds this exact type. -/
def kvExit (st : KVState) (t : Ty) : KVState :=
  if isPtrKind t then
    st
  else
    match st.enteredLeafAt with
    | some t2 =>
        if tyBeq t2 t then { st with enteredLeafAt := Option.none }
        else
          match st.enteredSliceAt with
          | some t3 =>
              if tyBeq t3 t then { st with enteredSliceAt := Option.none }
              else
                match st.enteredStructAt with
                | some t4 => if tyBeq t4 t then { st with enteredStructAt := Option.none } else st
                | Option.none => st
          | Option.none =>
              match st.enteredStructAt with
              | some t4 => if tyBeq t4 t then { st with enteredStructAt := Option.none } else st
              | Option.none => st
    | Option.none =>
        match st.enteredSliceAt with
        | some t3 =>
            if tyBeq t3 t then { st with enteredSliceAt := Option.none }
            else
              match st.enteredStructAt with
              | some t4 => if tyBeq t4 t then { st with enteredStructAt := Option.none } else st
              | Option.none => st
        | Option.none =>
            match st.enteredStructAt with
            | some t4 => if tyBeq t4 t then { st with enteredStructAt := Option.none } else st
            | Option.none => st

/-- `Driver.Enter`, dispatched on the driver: the JSON driver has no
protocol to follow. -/
def driverEnter (options : InnerOptions) (st : KVState) (atPath : String) (t : Ty) :
    Except DErr KVState :=
  match options.driver with
  | DriverId.json => Except.ok st
  | DriverId.kvlist => kvEnter st atPath t

/-- `Driver.Exit`, dispatched on the driver. -/
def driverExit (options : InnerOptions) (st : KVState) (t : Ty) : KVState :=
  match options.driver with
  | DriverId.json => st
  | DriverId.kvlist => kvExit st t

/-! ### User-supplied hooks -/

/-- The user-supplied behavior of capability hooks, keyed by struct type
name: `Initialize()` and `Validate()` receive the staging value and
return the (possibly mutated) value or an error; `callMethod` is the
body of a named `orMethod` constructor (zero arguments, so a fixed
outcome); the two unmarshal hooks model driver-specific decoding. -/
structure Env where
  runInit : String → GoValue → Except String GoValue
  runValidate : String → GoValue → Except String GoValue
  callMethod : String → String → Except String GoValue
  runUnmarshal : String → GoValue → Except String GoValue
  runUnmarshalDict : String → GoDict → Except String GoValue

/-- The method table visible on a container value (`reflect.New(typ)`,
a pointer, sees all methods of a struct type). -/
def methodsOf (t : Ty) : List (String × MethodSig) :=
  match t with
  | Ty.strct _ _ _ methods => methods
  | _ => []

/-- Association lookup in a method table. -/
def methodLookup (methods : List (String × MethodSig)) (name : String) : Option MethodSig :=
  match methods with
  | [] => Option.none
  | (n, sig) :: rest => if n = name then some sig else methodLookup rest name

/-- `deserialize.makeOrMethodConstructor`: resolve and validate the
`orMethod` tag against the container type.  On success the result names
the container type and the method, to be invoked through `Env` at
decode time. -/
def makeOrMethodConstructor (tags : Tags) (fieldType : Ty) (container : Ty) :
    Except DErr (Option (String × String)) :=
  match Tags.methodName tags with
  | Option.none => Except.ok Option.none
  | some name =>
      match methodLookup (methodsOf container) name with
      | Option.none =>
          Except.error (DErr.emsg ("method " ++ name ++
            " provided with `orMethod` doesn" ++ String.singleton (Char.ofNat 39) ++
            "t seem to exist - note that the method must be public"))
      | some sig =>
          if sig.numIn ≠ 0 then
            Except.error (DErr.emsg
              ("the method provided with `orMethod` MUST take no argument but takes " ++
                toString sig.numIn ++ " arguments"))
          else if sig.numOut ≠ 2 then
            Except.error (DErr.emsg
              ("the method provided with `orMethod` MUST return (" ++ typeName fieldType ++
                ", error) but it returns " ++ toString sig.numOut ++ " value(s)"))
          else if ¬ sig.out0Conv then
            Except.error (DErr.emsg
              ("the method provided with `orMethod` MUST return (" ++ typeName fieldType ++
                ", error) but it returns (" ++ sig.out0Name ++
                ", _) which is not convertible to `" ++ typeName fieldType ++ "`"))
          else if ¬ sig.out1Conv then
            Except.error (DErr.emsg
              ("the method provided with `orMethod` MUST return (" ++ typeName fieldType ++
                ", error) but it returns (_, " ++ sig.out1Name ++
                ") which is not convertible to `error`"))
          else
            Except.ok (some (typeName container, name))

/-! ### Compiled field plans

A `Plan` is the data closed over by the `reflectDeserializer` closures the
source builds: everything is precomputed at compile time, decode-time work
is pure value transformation (the data-model invariant of the spec). -/

mutual
/-- A compiled field plan.  One constructor per `make*Deserializer`
variant; `combined` is the two-candidate plan built at the end of
`makeFieldDeserializerFromReflect`. -/
inductive Plan where
  | flat (fieldPath : String) (tyName : String) (fieldTy : Ty)
      (hasUnmarshaler : Bool) (defaultValue : Option GoValue)
      (orMethod : Option (String × String)) (preinit : Bool)
  | ptrP (fieldPath : String) (elemTy : Ty) (elem : Plan)
      (isNilDefault : Bool) (orMethod : Option (String × String)) (preinit : Bool)
  | sliceP (fieldPath : String) (fieldTy : Ty) (elemTy : Ty) (elem : Plan)
      (isArray : Bool) (arrayLen : Nat) (isEmptyDefault : Bool)
      (orMethod : Option (String × String)) (preinit : Bool)
  | mapP (path : String) (ty : Ty) (elemTy : Ty) (elem : Plan)
      (isZeroDefault : Bool) (orMethod : Option (String × String)) (preinit : Bool)
  | structP (path : String) (ty : Ty) (fields : FieldPlans)
      (isZeroDefault : Bool) (orMethod : Option (String × String))
      (initData : InitMetadata) (preinit : Bool)
  | combined (structured : Plan) (flatAlt : Plan)

/-- The per-field deserializers of a struct plan, in declaration order,
with the Go field name, the public (external) name, visibility, the
exported flag and the flatten flag. -/
inductive FieldPlans where
  | nil
  | cons (goName : String) (publicName : String) (isPublic : Bool)
      (exported : Bool) (flattened : Bool) (p : Plan) (rest : FieldPlans)
end

/-- The struct name of a struct type (used to key `Env` hooks). -/
def structName (t : Ty) : String :=
  match t with
  | Ty.strct name _ _ _ => name
  | _ => ""

/-- The capability flags of a struct type. -/
def structCaps (t : Ty) : Caps :=
  match t with
  | Ty.strct _ _ caps _ => caps
  | _ => Caps.none

/-! ### The schema compiler (`make*Deserializer*`)

Each compile function returns the updated driver state together with the
plan or the configuration error, mirroring the `Enter`/`Exit` protocol
(deferred `Exit` calls run even when the function returns an error after
a successful `Enter`). -/

/-- The result of checking a `default` tag against the single literal a
non-scalar kind accepts (helper for the literal checks at
deserialize.go:702-710, 864-872, 944-950 and 1064-1072). -/
def checkOnlyDefault (tags : Tags) (accepted : String) (message : String) :
    Except DErr Bool :=
  match Tags.default tags with
  | Option.none => Except.ok false
  | some d =>
      if d = accepted then Except.ok true
      else Except.error (DErr.emsg (message ++ d))

/-- `deserialize.makeFlatFieldDeserializer` (compile half).  Not
recursive, so it needs no fuel. -/
def compileFlat (fieldPath : String) (fieldType : Ty) (options : InnerOptions)
    (ftags : Tags) (container : Ty) (preinit : Bool) (st : KVState) :
    KVState × Except DErr Plan :=
  match driverEnter options st fieldPath fieldType with
  | Except.error e => (st, Except.error e)
  | Except.ok st1 =>
      let tyName0 := typeName fieldType
      let tyName := if tyName0 = "" then fieldPath else tyName0
      let hasUnmarshaler := shouldUnmarshal options.driver fieldType
      match canInterface fieldType (fun c => c.validatorCap) ("validation.Validator") with
      | Except.error e => (driverExit options st1 fieldType, Except.error e)
      | Except.ok _ =>
          let defaultStep : Except DErr (Option GoValue) :=
            match Tags.default ftags with
            | Option.none => Except.ok Option.none
            | some d =>
                match lookupParser fieldType with
                | Option.none =>
                    Except.error (DErr.emsg ("cannot specify a default value at " ++
                      fieldPath ++ " for type " ++ tyGoString fieldType ++ " as we don" ++
                      String.singleton (Char.ofNat 39) ++
                      "t have a parser for such values"))
                | some parse =>
                    match parse d with
                    | Except.error pe =>
                        Except.error (DErr.ewrap
                          ("cannot parse default value at " ++ fieldPath ++ "\n\t * ")
                          (DErr.emsg pe))
                    | Except.ok v => Except.ok (some v)
          match defaultStep with
          | Except.error e => (driverExit options st1 fieldType, Except.error e)
          | Except.ok defaultValue =>
              match makeOrMethodConstructor ftags fieldType container with
              | Except.error e =>
                  (driverExit options st1 fieldType, Except.error (DErr.ewrap
                    ("at " ++ fieldPath ++ ", failed to setup `orMethod`\n\t * ") e))
              | Except.ok orM =>
                  (driverExit options st1 fieldType,
                   Except.ok (Plan.flat fieldPath tyName fieldType hasUnmarshaler
                     defaultValue orM preinit))

mutual
/-- `deserialize.makeStructDeserializerFromReflect` (compile half).
The `fuel` argument only bounds recursion depth so that the embedding is
executable; every concrete compilation below runs well within it. -/
def compileStruct (fuel : Nat) (path : String) (typ : Ty) (options : InnerOptions)
    (tags : Tags) (container : Ty) (preinit : Bool) (st : KVState) :
    KVState × Except DErr Plan :=
  match fuel with
  | 0 => (st, Except.error (DErr.emsg ("out of fuel")))
  | Nat.succ n =>
    match typ with
    | Ty.strct _ fields _ _ =>
        (match mkInitData typ options with
         | Except.error e => (st, Except.error e)
         | Except.ok initData =>
             match compileFields n path typ options initData preinit st fields with
             | (st2, Except.error e) => (st2, Except.error e)
             | (st2, Except.ok fps) =>
                 match checkOnlyDefault tags ("\x7b\x7d")
                     ("at " ++ path ++
                      ", invalid `default` value. The only supported `default` value for structs is \"\x7b\x7d\", got: ") with
                 | Except.error e => (st2, Except.error e)
                 | Except.ok isZeroDefault =>
                     match makeOrMethodConstructor tags typ container with
                     | Except.error e =>
                         (st2, Except.error (DErr.ewrap
                           ("at " ++ path ++ ", failed to setup `orMethod`\n\t * ") e))
                     | Except.ok orM =>
                         (st2, Except.ok (Plan.structP path typ fps isZeroDefault orM
                            initData preinit)))
    | _ =>
        (st, Except.error (DErr.emsg
          ("invalid call to StructDeserializer: " ++ path ++ " is not a struct")))

/-- The per-field loop of `makeStructDeserializerFromReflect`
(deserialize.go:604-700). -/
def compileFields (fuel : Nat) (path : String) (parent : Ty) (options : InnerOptions)
    (initData : InitMetadata) (structPreinit : Bool) (st : KVState) (fs : Fields) :
    KVState × Except DErr FieldPlans :=
  match fuel with
  | 0 => (st, Except.error (DErr.emsg ("out of fuel")))
  | Nat.succ n =>
    match fs with
    | Fields.nil => (st, Except.ok FieldPlans.nil)
    | Fields.cons meta fieldType rest =>
        let ftags := meta.tags
        let publicFieldName :=
          (Tags.publicFieldName ftags options.renamingTagName).getD meta.name
        let hasDefault := (Tags.default ftags).isSome
        let hasConstructionMethod := (Tags.methodName ftags).isSome
        if hasDefault && hasConstructionMethod then
          (st, Except.error (DErr.emsg ("struct " ++ path ++ " contains a field \"" ++
            meta.name ++
            "\" that has both a `default` and a `orMethod` declaration. Please specify only one")))
        else
          let willPreinit := initData.willPreinit || structPreinit || Tags.isPreinit ftags
          let isPublic := decide (publicFieldName ≠ "-") && meta.exported
          if ¬ isPublic && ¬ willPreinit then
            (st, Except.error (DErr.emsg ("struct " ++ path ++ " contains a field \"" ++
              meta.name ++
              "\" that is not public and not pre-initialized, you should either make it public or specify an initializer with `Initializer` or `UnmarshalJSON`")))
          else
            let fieldPath := path ++ "." ++ publicFieldName
            let wasFlattened := Tags.isFlat ftags || meta.anonymous
            match compileField n fieldPath fieldType options ftags parent willPreinit
                wasFlattened st with
            | (st2, Except.error e) => (st2, Except.error e)
            | (st2, Except.ok p) =>
                match compileFields n path parent options initData structPreinit st2 rest with
                | (st3, Except.error e) => (st3, Except.error e)
                | (st3, Except.ok fps) =>
                    (st3, Except.ok (FieldPlans.cons meta.name publicFieldName isPublic
                      meta.exported wasFlattened p fps))

/-- `deserialize.makeFieldDeserializerFromReflect` (compile half):
build the kind-specific structured plan, always attempt the flat plan,
and combine. -/
def compileField (fuel : Nat) (fieldPath : String) (fieldType : Ty)
    (options : InnerOptions) (ftags : Tags) (container : Ty) (preinit : Bool)
    (wasFlattened : Bool) (st : KVState) : KVState × Except DErr Plan :=
  match fuel with
  | 0 => (st, Except.error (DErr.emsg ("out of fuel")))
  | Nat.succ n =>
    match (if wasFlattened then Except.ok st
           else driverEnter options st fieldPath fieldType) with
    | Except.error e => (st, Except.error e)
    | Except.ok st1 =>
        let exit := fun (s : KVState) =>
          if wasFlattened then s else driverExit options s fieldType
        let structuredStep : KVState × Except DErr (Option Plan) :=
          match fieldType with
          | Ty.ptr e =>
              (match compilePtr n fieldPath (Ty.ptr e) options ftags container preinit st1 with
               | (s, Except.error e2) => (s, Except.error e2)
               | (s, Except.ok p) => (s, Except.ok (some p)))
          | Ty.array m e =>
              (match compileSlice n fieldPath (Ty.array m e) options ftags container
                  preinit st1 with
               | (s, Except.error e2) => (s, Except.error e2)
               | (s, Except.ok p) => (s, Except.ok (some p)))
          | Ty.slice e =>
              (match compileSlice n fieldPath (Ty.slice e) options ftags container
                  preinit st1 with
               | (s, Except.error e2) => (s, Except.error e2)
               | (s, Except.ok p) => (s, Except.ok (some p)))
          | Ty.strct nm fs cs ms =>
              (match compileStruct n fieldPath (Ty.strct nm fs cs ms) options ftags container
                  preinit st1 with
               | (s, Except.error e2) => (s, Except.error e2)
               | (s, Except.ok p) => (s, Except.ok (some p)))
          | Ty.mapTy sk e =>
              (match compileMap n fieldPath (Ty.mapTy sk e) options ftags container
                  preinit st1 with
               | (s, Except.error e2) => (s, Except.error e2)
               | (s, Except.ok p) => (s, Except.ok (some p)))
          | Ty.scalar _ => (st1, Except.ok Option.none)
        match structuredStep with
        | (st2, Except.error e) =>
            (exit st2, Except.error (DErr.ewrap ("could not generate a deserializer for " ++
              fieldPath ++ " with type " ++ typeName fieldType ++ ":\n\t * ") e))
        | (st2, Except.ok structured) =>
            match compileFlat fieldPath fieldType options ftags container preinit st2 with
            | (st3, Except.error flatError) =>
                (match structured with
                 | Option.none =>
                     (exit st3, Except.error (DErr.ewrap
                       ("could not generate a deserializer for " ++ fieldPath ++
                        " with type " ++ typeName fieldType ++ ":\n\t * ") flatError))
                 | some sp => (exit st3, Except.ok sp))
            | (st3, Except.ok fp) =>
                (match structured with
                 | Option.none => (exit st3, Except.ok fp)
                 | some sp => (exit st3, Except.ok (Plan.combined sp fp)))

/-- `deserialize.makePointerDeserializer` (compile half). -/
def compilePtr (fuel : Nat) (fieldPath : String) (fieldType : Ty)
    (options : InnerOptions) (ftags : Tags) (container : Ty) (preinit : Bool)
    (st : KVState) : KVState × Except DErr Plan :=
  match fuel with
  | 0 => (st, Except.error (DErr.emsg ("out of fuel")))
  | Nat.succ n =>
    match fieldType with
    | Ty.ptr elemTy =>
        (match driverEnter options st fieldPath fieldType with
         | Except.error e => (st, Except.error e)
         | Except.ok st1 =>
             let ptrPath := fieldPath ++ "*"
             let childPreinit := preinit || Tags.isPreinit ftags
             match compileField n ptrPath elemTy options Tags.empty fieldType childPreinit
                 false st1 with
             | (st2, Except.error e) =>
                 (driverExit options st2 fieldType, Except.error (DErr.ewrap
                   ("failed to generate a deserializer for " ++ fieldPath ++ "\n\t * ") e))
             | (st2, Except.ok elemPlan) =>
                 match checkOnlyDefault ftags ("nil")
                     ("at " ++ fieldPath ++
                      ", invalid `default` value. The only supported `default` value for pointers is \"nil\", got: ") with
                 | Except.error e => (driverExit options st2 fieldType, Except.error e)
                 | Except.ok isNilDefault =>
                     match makeOrMethodConstructor ftags fieldType container with
                     | Except.error e =>
                         (driverExit options st2 fieldType, Except.error (DErr.ewrap
                           ("at " ++ fieldPath ++ ", failed to setup `orMethod`\n\t * ") e))
                     | Except.ok orM =>
                         (driverExit options st2 fieldType,
                          Except.ok (Plan.ptrP fieldPath elemTy elemPlan isNilDefault orM
                            preinit)))
    | _ =>
        (st, Except.error (DErr.emsg ("invalid call: " ++ fieldPath ++ " is not a pointer")))

/-- `deserialize.makeSliceDeserializer` (compile half); handles both
slice and array kinds, with no `Enter` hook of its own. -/
def compileSlice (fuel : Nat) (fieldPath : String) (fieldType : Ty)
    (options : InnerOptions) (ftags : Tags) (container : Ty) (preinit : Bool)
    (st : KVState) : KVState × Except DErr Plan :=
  match fuel with
  | 0 => (st, Except.error (DErr.emsg ("out of fuel")))
  | Nat.succ n =>
    match checkOnlyDefault ftags ("[]")
        ("at " ++ fieldPath ++
         ", invalid `default` value. The only supported `default` value for arrays or slices is \"[]\", got: ") with
    | Except.error e => (st, Except.error e)
    | Except.ok isEmptyDefault =>
        match makeOrMethodConstructor ftags fieldType container with
        | Except.error e =>
            (st, Except.error (DErr.ewrap
              ("at " ++ fieldPath ++ ", failed to setup `orMethod`\n\t * ") e))
        | Except.ok orM =>
            match canInterface fieldType (fun c => c.validatorCap) ("validation.Validator") with
            | Except.error e => (st, Except.error e)
            | Except.ok _ =>
                let childPreinit := preinit || Tags.isPreinit ftags
                match fieldType with
                | Ty.slice elemTy =>
                    (match compileField n (fieldPath ++ "[]") elemTy options Tags.empty
                        fieldType childPreinit false st with
                     | (st2, Except.error e) =>
                         (st2, Except.error (DErr.ewrap
                           ("failed to generate a deserializer for " ++ fieldPath ++
                            "\n\t * ") e))
                     | (st2, Except.ok elemPlan) =>
                         (st2, Except.ok (Plan.sliceP fieldPath fieldType elemTy elemPlan
                           false 0 isEmptyDefault orM preinit)))
                | Ty.array m elemTy =>
                    (match compileField n (fieldPath ++ "[]") elemTy options Tags.empty
                        fieldType childPreinit false st with
                     | (st2, Except.error e) =>
                         (st2, Except.error (DErr.ewrap
                           ("failed to generate a deserializer for " ++ fieldPath ++
                            "\n\t * ") e))
                     | (st2, Except.ok elemPlan) =>
                         (st2, Except.ok (Plan.sliceP fieldPath fieldType elemTy elemPlan
                           true m isEmptyDefault orM preinit)))
                | _ =>
                    (st, Except.error (DErr.emsg
                      ("invalid call: " ++ fieldPath ++ " is not a slice or array")))

/-- `deserialize.makeMapDeserializerFromReflect` (compile half). -/
def compileMap (fuel : Nat) (path : String) (typ : Ty) (options : InnerOptions)
    (tags : Tags) (container : Ty) (preinit : Bool) (st : KVState) :
    KVState × Except DErr Plan :=
  match fuel with
  | 0 => (st, Except.error (DErr.emsg ("out of fuel")))
  | Nat.succ n =>
    match typ with
    | Ty.mapTy stringKey elemTy =>
        (match driverEnter options st path typ with
         | Except.error e => (st, Except.error e)
         | Except.ok st1 =>
             if ¬ stringKey then
               (driverExit options st1 typ, Except.error (DErr.emsg ("invalid map type at " ++
                 path ++ ", only map[string]T can be converted into a deserializer")))
             else
               match mkInitData typ options with
               | Except.error e => (driverExit options st1 typ, Except.error e)
               | Except.ok initMeta =>
                   match compileField n (path ++ "[]") elemTy options Tags.empty typ
                       initMeta.willPreinit false st1 with
                   | (st2, Except.error e) => (driverExit options st2 typ, Except.error e)
                   | (st2, Except.ok elemPlan) =>
                       match checkOnlyDefault tags ("\x7b\x7d")
                           ("at " ++ path ++
                            ", invalid `default` value. The only supported `default` value for maps is \"\x7b\x7d\", got: ") with
                       | Except.error e => (driverExit options st2 typ, Except.error e)
                       | Except.ok isZeroDefault =>
                           match makeOrMethodConstructor tags typ container with
                           | Except.error e =>
                               (driverExit options st2 typ, Except.error (DErr.ewrap
                                 ("at " ++ path ++ ", failed to setup `orMethod`\n\t * ") e))
                           | Except.ok orM =>
                               (driverExit options st2 typ,
                                Except.ok (Plan.mapP path typ elemTy elemPlan isZeroDefault
                                  orM preinit)))
    | _ => (st, Except.error (DErr.emsg ("invalid call: " ++ path ++ " is not a map")))
end

/-! ### The runtime execution engine (`reflectDeserializer` closures)

A decode call receives the current contents of the output slot
(`outPtr`) and the wire value at this position (`none` models a nil
`shared.Value`), and returns the final slot contents together with the
error, mirroring writes through `outPtr` and the returned `error`. -/

/-- The outcome of one `reflectDeserializer` call: the slot contents
after the call, and the returned error. -/
structure DRes where
  slot : GoValue
  derr : Option DErr

/-- `outPtr.FieldByName(name)` on a struct staging value. -/
def getField (v : GoValue) (name : String) : GoValue :=
  match v with
  | GoValue.vstruct _ fields => (dictLookup fields name).getD GoValue.vnull
  | _ => GoValue.vnull

/-- Write one field of a struct staging value. -/
def setField (v : GoValue) (name : String) (x : GoValue) : GoValue :=
  match v with
  | GoValue.vstruct n fields => GoValue.vstruct n (dictSet fields name x)
  | other => other

/-- `len(input)` for modelled value lists. -/
def gvsLen : GoValues → Nat
  | GoValues.nil => 0
  | GoValues.cons _ rest => gvsLen rest + 1

/-- The conversion tail of the flat deserializer
(deserialize.go:1218-1279): nil handling, direct conversion, then the
string-parser and driver-unmarshal recovery paths. -/
def flatConvert (env : Env) (fieldPath : String) (tyName : String) (fieldTy : Ty)
    (hasUnmarshaler : Bool) (slot : GoValue) (input : GoValue) : DRes :=
  if isNilAny input then
    match fieldTy with
    | Ty.ptr _ => { slot := zeroValue fieldTy, derr := Option.none }
    | _ =>
        { slot := slot, derr := some (DErr.emsg ("invalid value at " ++ fieldPath ++
            ", expected " ++ tyName ++ ", got <nil>")) }
  else
    if canConvert input fieldTy then
      { slot := input, derr := Option.none }
    else
      let parsed : Option GoValue :=
        match lookupParser fieldTy, input with
        | some parse, GoValue.vstr s =>
            (match parse s with
             | Except.ok v => some v
             | Except.error _ => Option.none)
        | _, _ => Option.none
      match parsed with
      | some v => { slot := v, derr := Option.none }
      | Option.none =>
          if hasUnmarshaler then
            match env.runUnmarshal tyName input with
            | Except.ok v => { slot := v, derr := Option.none }
            | Except.error _ =>
                { slot := slot, derr := some (DErr.emsg ("invalid value at " ++ fieldPath ++
                    ", expected " ++ tyName ++ ", got " ++ gvFormat input)) }
          else
            { slot := slot, derr := some (DErr.emsg ("invalid value at " ++ fieldPath ++
                ", expected " ++ tyName ++ ", got " ++ gvFormat input)) }

/-- The deferred validation step of the struct deserializer
(deserialize.go:738-754), reached when the body returned without error:
`written` is what the body wrote through `outPtr`, `staging` the staging
instance (`resultPtr`) the validator inspects.  On success the staging
value (possibly mutated by `Validate`) is written again; on failure the
error is wrapped as a validation error and only the local staging
reference is replaced by a zero value, so the slot keeps `written`. -/
def structDeferred (env : Env) (path : String) (ty : Ty) (written : GoValue)
    (staging : GoValue) : DRes :=
  if (structCaps ty).validatorCap.isSome then
    match env.runValidate (structName ty) staging with
    | Except.ok mutated => { slot := mutated, derr := Option.none }
    | Except.error cause =>
        { slot := written, derr := some (DErr.validationE path cause) }
  else
    { slot := written, derr := Option.none }

mutual
/-- Execute a compiled plan: the decode halves of
`makeFlatFieldDeserializer`, `makePointerDeserializer`,
`makeSliceDeserializer`, `makeMapDeserializerFromReflect`,
`makeStructDeserializerFromReflect` and the combined deserializer of
`makeFieldDeserializerFromReflect`.  `canIfc` is
`outPtr.CanInterface()` (false for unexported field slots); `fuel`
bounds recursion depth so that the model is executable. -/
def decodePlan (fuel : Nat) (env : Env) (p : Plan) (canIfc : Bool) (slot : GoValue)
    (inValue : Option GoValue) : DRes :=
  match fuel with
  | 0 => { slot := slot, derr := some (DErr.emsg ("out of fuel")) }
  | Nat.succ n =>
    match p with
    | Plan.flat fieldPath tyName fieldTy hasUnmarshaler defaultValue orM preinit =>
        (match inValue with
         | some v => flatConvert env fieldPath tyName fieldTy hasUnmarshaler slot v
         | Option.none =>
             if preinit then
               if canIfc then
                 flatConvert env fieldPath tyName fieldTy hasUnmarshaler slot slot
               else
                 { slot := slot, derr := Option.none }
             else
               match defaultValue with
               | some d => flatConvert env fieldPath tyName fieldTy hasUnmarshaler slot d
               | Option.none =>
                   match orM with
                   | some (cn, mn) =>
                       (match env.callMethod cn mn with
                        | Except.error e =>
                            { slot := slot, derr := some (DErr.custom ("orMethod") ("field")
                                (DErr.ewrap ("error in optional value at " ++ fieldPath ++
                                  "\n\t * ") (DErr.emsg e))) }
                        | Except.ok constructed =>
                            flatConvert env fieldPath tyName fieldTy hasUnmarshaler slot
                              constructed)
                   | Option.none =>
                       { slot := slot, derr := some (DErr.emsg ("missing value at " ++
                           fieldPath ++ ", expected " ++ tyName)) })
    | Plan.ptrP fieldPath elemTy elem isNilDefault orM preinit =>
        (match inValue, preinit, isNilDefault, orM with
         | Option.none, true, _, _ => { slot := slot, derr := Option.none }
         | Option.none, false, true, _ => { slot := slot, derr := Option.none }
         | Option.none, false, false, some (cn, mn) =>
             (match env.callMethod cn mn with
              | Except.error e =>
                  { slot := slot, derr := some (DErr.custom ("orMethod") ("ptr")
                      (DErr.ewrap ("error in optional value at " ++ fieldPath ++ "\n\t * ")
                        (DErr.emsg e))) }
              | Except.ok constructed => { slot := constructed, derr := Option.none })
         | input, _, _, _ =>
             let r := decodePlan n env elem true (zeroValue elemTy) input
             (match r.derr with
              | some e => { slot := slot, derr := some e }
              | Option.none => { slot := GoValue.vptr r.slot, derr := Option.none }))
    | Plan.sliceP fieldPath fieldTy elemTy elem isArray arrayLen isEmptyDefault orM preinit =>
        let finish := fun (input : GoValues) =>
          if isArray then
            if arrayLen ≠ gvsLen input then
              { slot := slot, derr := some (DErr.emsg ("invalid array length at " ++
                  fieldPath ++ ", expecting " ++ toString arrayLen ++ ", got " ++
                  toString (gvsLen input))) }
            else
              match decodeElems n env elemTy elem fieldPath 0 input with
              | Except.error e => { slot := slot, derr := some e }
              | Except.ok out => { slot := GoValue.vlist out, derr := Option.none }
          else
            match decodeElems n env elemTy elem fieldPath 0 input with
            | Except.error e => { slot := slot, derr := some e }
            | Except.ok out => { slot := GoValue.vlist out, derr := Option.none }
        (match inValue with
         | some v =>
             (match asSlice v with
              | Option.none =>
                  { slot := slot, derr := some (DErr.emsg ("error while deserializing " ++
                      tyGoString fieldTy ++ ": expected an array")) }
              | some elems => finish elems)
         | Option.none =>
             if isEmptyDefault then finish GoValues.nil
             else
               match orM with
               | some (cn, mn) =>
                   (match env.callMethod cn mn with
                    | Except.error e =>
                        { slot := slot, derr := some (DErr.ewrap
                            ("error in optional value at " ++ fieldPath ++ "\n\t * ")
                            (DErr.emsg e)) }
                    | Except.ok constructed => { slot := constructed, derr := Option.none })
               | Option.none =>
                   if preinit then finish GoValues.nil
                   else
                     { slot := slot, derr := some (DErr.emsg ("missing value at " ++
                         fieldPath ++ "[], expected an array of " ++ fieldPath)) })
    | Plan.mapP path ty elemTy elem isZeroDefault orM preinit =>
        let finish := fun (v : GoValue) =>
          match asDict v with
          | Option.none =>
              { slot := slot, derr := some (DErr.emsg ("invalid value at " ++ path ++
                  ", expected an object of type " ++ typeName ty ++ ", got " ++
                  gvFormat v)) }
          | some entries =>
              match decodeMapEntries n env elemTy elem entries with
              | Except.error e => { slot := slot, derr := some e }
              | Except.ok out => { slot := GoValue.vdict out, derr := Option.none }
        (match inValue with
         | some v => finish v
         | Option.none =>
             if isZeroDefault || preinit then finish GoValue.vempty
             else
               match orM with
               | some (cn, mn) =>
                   (match env.callMethod cn mn with
                    | Except.error e =>
                        { slot := slot, derr := some (DErr.custom ("orMethod") ("map")
                            (DErr.ewrap ("error in optional value at " ++ path ++ "\n\t * ")
                              (DErr.emsg e))) }
                    | Except.ok constructed => { slot := constructed, derr := Option.none })
               | Option.none =>
                   { slot := slot, derr := some (DErr.emsg ("missing object value at " ++
                       path ++ ", expected " ++ typeName ty)) })
    | Plan.structP path ty fps isZeroDefault orM initData preinit =>
        let sname := structName ty
        let fresh := zeroValue ty
        let initStep : Except DErr (GoValue × Bool) :=
          if initData.canInitSelf then
            match env.runInit sname fresh with
            | Except.error e =>
                Except.error (DErr.custom ("initializer") ("struct") (DErr.ewrap
                  ("at " ++ path ++
                   ", encountered an error while initializing optional fields:\n\t * ")
                  (DErr.emsg e)))
            | Except.ok v => Except.ok (v, true)
          else Except.ok (fresh, preinit)
        (match initStep with
         | Except.error e => { slot := slot, derr := some e }
         | Except.ok (staging0, wasPre) =>
             let proceed := fun (v : GoValue) =>
               if initData.canDriverUnmarshal then
                 match env.runUnmarshal sname v with
                 | Except.error e =>
                     { slot := slot, derr := some (DErr.ewrap ("at " ++ path ++
                         ", expected to be able to parse a " ++ typeName ty ++ ":\n\t * ")
                         (DErr.emsg e)) }
                 | Except.ok unm => structDeferred env path ty unm unm
               else if initData.canUnmarshalFromDict then
                 match asDict v with
                 | Option.none =>
                     { slot := slot, derr := some (DErr.emsg ("invalid value at " ++ path ++
                         ", expected an object of type " ++ typeName ty ++ ", got " ++
                         typeName ty)) }
                 | some d =>
                     match env.runUnmarshalDict sname d with
                     | Except.error e =>
                         { slot := slot, derr := some (DErr.ewrap ("at " ++ path ++
                             ", expected to be able to parse a " ++ typeName ty ++
                             ":\n\t * ") (DErr.emsg e)) }
                     | Except.ok unm => structDeferred env path ty unm unm
               else
                 match asDict v with
                 | Option.none =>
                     { slot := slot, derr := some (DErr.emsg ("invalid value at " ++ path ++
                         ", expected an object of type " ++ typeName ty ++ ", got " ++
                         typeName ty)) }
                 | some inMap =>
                     match decodeFields n env fps staging0 inMap with
                     | Except.error e => { slot := slot, derr := some e }
                     | Except.ok staging => structDeferred env path ty staging staging
             match inValue with
             | some v => proceed v
             | Option.none =>
                 if isZeroDefault || wasPre then proceed GoValue.vempty
                 else
                   match orM with
                   | some (cn, mn) =>
                       (match env.callMethod cn mn with
                        | Except.error e =>
                            { slot := slot, derr := some (DErr.custom ("orMethod") ("struct")
                                (DErr.ewrap ("error in optional value at " ++ path ++
                                  "\n\t * ") (DErr.emsg e))) }
                        | Except.ok constructed =>
                            structDeferred env path ty constructed staging0)
                   | Option.none =>
                       { slot := slot, derr := some (DErr.emsg ("missing object value at " ++
                           path ++ ", expected " ++ typeName ty)) })
    | Plan.combined structured flatAlt =>
        let r := decodePlan n env structured canIfc slot inValue
        (match r.derr with
         | Option.none => r
         | some e =>
             if DErr.isValidation e then r
             else
               let r2 := decodePlan n env flatAlt canIfc r.slot inValue
               match r2.derr with
               | Option.none => { slot := r2.slot, derr := Option.none }
               | some _ => { slot := r2.slot, derr := some e })

/-- Per-element decoding of the slice deserializer, wrapping element
errors with the index (deserialize.go:1010-1030). -/
def decodeElems (fuel : Nat) (env : Env) (elemTy : Ty) (elem : Plan) (fieldPath : String)
    (i : Nat) (vs : GoValues) : Except DErr GoValues :=
  match fuel with
  | 0 => Except.error (DErr.emsg ("out of fuel"))
  | Nat.succ n =>
    match vs with
    | GoValues.nil => Except.ok GoValues.nil
    | GoValues.cons v rest =>
        let r := decodePlan n env elem true (zeroValue elemTy) (some v)
        match r.derr with
        | some e =>
            Except.error (DErr.ewrap ("error while deserializing " ++ fieldPath ++ "[" ++
              toString i ++ "]:\n\t * ") e)
        | Option.none =>
            match decodeElems n env elemTy elem fieldPath (i + 1) rest with
            | Except.error e => Except.error e
            | Except.ok tail => Except.ok (GoValues.cons r.slot tail)

/-- Per-key decoding of the map deserializer
(deserialize.go:912-928). -/
def decodeMapEntries (fuel : Nat) (env : Env) (elemTy : Ty) (elem : Plan)
    (entries : GoDict) : Except DErr GoDict :=
  match fuel with
  | 0 => Except.error (DErr.emsg ("out of fuel"))
  | Nat.succ n =>
    match entries with
    | GoDict.nil => Except.ok GoDict.nil
    | GoDict.cons k v rest =>
        let r := decodePlan n env elem true (zeroValue elemTy) (some v)
        match r.derr with
        | some e => Except.error e
        | Option.none =>
            match decodeMapEntries n env elemTy elem rest with
            | Except.error e => Except.error e
            | Except.ok tail => Except.ok (GoDict.cons k r.slot tail)

/-- The per-field decode loop of the struct deserializer
(deserialize.go:651-696 and 810-815): flattened fields are decoded from
the surrounding dictionary itself, other public fields from the entry
under their public name, private fields from a nil value. -/
def decodeFields (fuel : Nat) (env : Env) (fps : FieldPlans) (staging : GoValue)
    (inMap : GoDict) : Except DErr GoValue :=
  match fuel with
  | 0 => Except.error (DErr.emsg ("out of fuel"))
  | Nat.succ n =>
    match fps with
    | FieldPlans.nil => Except.ok staging
    | FieldPlans.cons goName publicName isPublic exported flattened p rest =>
        let slotF := getField staging goName
        let r :=
          if flattened then
            decodePlan n env p exported slotF (some (GoValue.vdict inMap))
          else
            let fieldValue := if isPublic then dictLookup inMap publicName else Option.none
            decodePlan n env p exported slotF fieldValue
        let staging2 := setField staging goName r.slot
        match r.derr with
        | some e => Except.error e
        | Option.none => decodeFields n env rest staging2 inMap
end

/-! ### Outer deserializers and the public construction API -/

/-- The compiled outer deserializer
(`makeOuterStructDeserializerFromReflect`): the full error path prefix,
the target type, whether the outer value runs `Initialize`, and the
struct plan. -/
structure OuterPlan where
  path : String
  ty : Ty
  canInitSelf : Bool
  plan : Plan

/-- `deserialize.makeOuterStructDeserializerFromReflect` (compile half):
`Enter` the root type, probe its capabilities, extend the human-readable
root path with the type name, and build the struct plan with no tags. -/
def compileOuter (fuel : Nat) (path0 : String) (options : InnerOptions) (typ : Ty)
    (st : KVState) : KVState × Except DErr OuterPlan :=
  match driverEnter options st path0 typ with
  | Except.error e => (st, Except.error e)
  | Except.ok st1 =>
      match mkInitData typ options with
      | Except.error e => (driverExit options st1 typ, Except.error e)
      | Except.ok meta =>
          let path := if path0 = "" then typeName typ else path0 ++ "." ++ typeName typ
          match compileStruct fuel path typ options Tags.empty typ meta.canInitSelf st1 with
          | (st2, Except.error e) => (driverExit options st2 typ, Except.error e)
          | (st2, Except.ok p) =>
              (driverExit options st2 typ,
               Except.ok { path := path, ty := typ, canInitSelf := meta.canInitSelf,
                           plan := p })

/-- The decode half of the outer deserializer: run the outer
`Initialize` hook if any, then the struct plan on the dictionary
(`mapDeserializer.deserializer` as built at deserialize.go:518-552,
composed with `DeserializeDict`, which allocates a fresh output). -/
def outerDecode (fuel : Nat) (env : Env) (op : OuterPlan) (value : GoDict) :
    Except DErr GoValue :=
  let start0 := zeroValue op.ty
  let initStep : Except DErr GoValue :=
    if op.canInitSelf then
      match env.runInit (structName op.ty) start0 with
      | Except.error e =>
          Except.error (DErr.custom ("initializer") ("outer") (DErr.ewrap ("at " ++
            op.path ++ ", encountered an error while initializing optional fields:\n\t * ")
            (DErr.emsg e)))
      | Except.ok v => Except.ok v
    else Except.ok start0
  match initStep with
  | Except.error e => Except.error e
  | Except.ok resultSlot =>
      let r := decodePlan fuel env op.plan true resultSlot (some (GoValue.vdict value))
      match r.derr with
      | some e => Except.error e
      | Option.none => Except.ok r.slot

/-- `deserialize.MakeMapDeserializer`: validate the options and compile
the outer deserializer, starting from a fresh driver. -/
def makeMapDeserializer (fuel : Nat) (mainTagName rootPath : String) (d : DriverId)
    (typ : Ty) : Except DErr OuterPlan :=
  if mainTagName = "" then Except.error (DErr.emsg ("missing option MainTagName"))
  else
    (compileOuter fuel rootPath { renamingTagName := mainTagName, driver := d } typ
      KVState.start).2

/-- The loop of `mapDeserializer.DeserializeList`
(deserialize.go:397-410): entries whose `AsDict` fails are skipped;
a failing dictionary entry aborts the whole call with an error naming
its index (the Go code then returns the empty slice alongside the
error). -/
def deserializeListFrom (fuel : Nat) (env : Env) (op : OuterPlan) (i : Nat) :
    List GoValue → Except DErr (List GoValue)
  | [] => Except.ok []
  | entry :: rest =>
      match asDict entry with
      | some d =>
          (match outerDecode fuel env op d with
           | Except.error e =>
               Except.error (DErr.ewrap ("failed to deserialize entry " ++ toString i ++
                 ": \n\t * ") e)
           | Except.ok v =>
               match deserializeListFrom fuel env op (i + 1) rest with
               | Except.error e => Except.error e
               | Except.ok tail => Except.ok (v :: tail))
      | Option.none => deserializeListFrom fuel env op (i + 1) rest

/-- `mapDeserializer.DeserializeList`. -/
def deserializeList (fuel : Nat) (env : Env) (op : OuterPlan) (list : List GoValue) :
    Except DErr (List GoValue) :=
  deserializeListFrom fuel env op 0 list

/-! ### The kvlist normalization step (`deListMapReflect`) -/

/-- One entry of the normalized `map[string]any` built by
`deListMapReflect`: either the raw `[]string` (slice and array fields)
or a single string. -/
inductive KVVal where
  | single (s : String)
  | multi (l : List String)
deriving DecidableEq, Repr

/-- `inMap[k]` on a Go `map[string][]string`: a missing key reads as the
nil slice. -/
def kvListLookup (inMap : List (String × List String)) (key : String) : List String :=
  match inMap with
  | [] => []
  | (k, v) :: rest => if k = key then v else kvListLookup rest key

/-- `outMap[k] = v` on the normalized map. -/
def kvSet (outMap : List (String × KVVal)) (key : String) (v : KVVal) :
    List (String × KVVal) :=
  match outMap with
  | [] => [(key, v)]
  | (k, v0) :: rest =>
      if k = key then (k, v) :: rest else (k, v0) :: kvSet rest key v

mutual
/-- `deserialize.deListMapReflect`: normalize a `map[string][]string`
into a dictionary, one struct field at a time. -/
def deListMapReflect (typ : Ty) (renTag : String) (outMap : List (String × KVVal))
    (inMap : List (String × List String)) : Except DErr (List (String × KVVal)) :=
  match typ with
  | Ty.strct _ fields _ _ => deListFields renTag fields (typeName typ) outMap inMap
  | _ =>
      Except.error (DErr.emsg
        ("cannot implement a MapListDeserializer without a struct, got " ++ typeName typ))

/-- The per-field loop of `deListMapReflect`
(deserialize.go:434-468): slice and array fields copy the raw value
list; flattened or anonymous struct fields recurse into the same maps;
any other field accepts zero values (absent) or exactly one value. -/
def deListFields (renTag : String) (fs : Fields) (tname : String)
    (outMap : List (String × KVVal)) (inMap : List (String × List String)) :
    Except DErr (List (String × KVVal)) :=
  match fs with
  | Fields.nil => Except.ok outMap
  | Fields.cons meta fty rest =>
      let pub := (Tags.publicFieldName meta.tags renTag).getD meta.name
      if isSliceOrArrayKind fty then
        deListFields renTag rest tname
          (kvSet outMap pub (KVVal.multi (kvListLookup inMap pub))) inMap
      else if isStructKind fty && (Tags.isFlat meta.tags || meta.anonymous) then
        match deListMapReflect fty renTag outMap inMap with
        | Except.error e => Except.error e
        | Except.ok outMap2 => deListFields renTag rest tname outMap2 inMap
      else
        (match kvListLookup inMap pub with
         | [] => deListFields renTag rest tname outMap inMap
         | [v] => deListFields renTag rest tname (kvSet outMap pub (KVVal.single v)) inMap
         | l =>
             Except.error (DErr.emsg ("cannot fit " ++ toString l.length ++
               " elements into a single entry of field " ++ tname ++ "." ++ meta.name)))
end

/-- `kvlist.MakeRootDict` over the normalized map: single values wrap as
strings, multi values as string lists. -/
def kvNormalizedToDict (outMap : List (String × KVVal)) : GoDict :=
  match outMap with
  | [] => GoDict.nil
  | (k, KVVal.single s) :: rest => GoDict.cons k (GoValue.vstr s) (kvNormalizedToDict rest)
  | (k, KVVal.multi l) :: rest =>
      GoDict.cons k (GoValue.vlist (l.foldr (fun s acc => GoValues.cons (GoValue.vstr s) acc)
        GoValues.nil)) (kvNormalizedToDict rest)

/-- `deserialize.MakeKVListDeserializer` (compile half): same outer
compilation, against the kvlist driver. -/
def makeKVListDeserializer (fuel : Nat) (mainTagName rootPath : String) (typ : Ty) :
    Except DErr OuterPlan :=
  if mainTagName = "" then Except.error (DErr.emsg ("missing option MainTagName"))
  else
    (compileOuter fuel rootPath
      { renamingTagName := mainTagName, driver := DriverId.kvlist } typ KVState.start).2

/-- The decode closure of `MakeKVListDeserializer`
(deserialize.go:272-279): normalize the `(key, value list)` map, then
run the wrapped dictionary deserializer on the root dictionary. -/
def deserializeKVList (fuel : Nat) (env : Env) (renTag : String) (op : OuterPlan)
    (value : List (String × List String)) : Except DErr GoValue :=
  match deListMapReflect op.ty renTag [] value with
  | Except.error e =>
      Except.error (DErr.ewrap
        ("error attempting to deserialize from a list of entries:\n\t * ") e)
  | Except.ok normalized => outerDecode fuel env op (kvNormalizedToDict normalized)

/-! ### Infrastructure for the verification theorems -/

/-- Does the second list occur at the head of the first? -/
def chStarts (sub s : List Char) : Bool :=
  match sub, s with
  | [], _ => true
  | _ :: _, [] => false
  | c :: cs, d :: ds => c = d && chStarts cs ds

/-- Does the second list occur anywhere inside the first? -/
def chFound (s sub : List Char) : Bool :=
  match s with
  | [] => sub.isEmpty
  | _ :: rest => chStarts sub s || chFound rest sub

/-- Substring test on strings (used to check what an error message
mentions). -/
def strHas (s sub : String) : Bool :=
  chFound s.data sub.data

/-- An environment with no user hooks: initialization and named
constructors are never reached for capability-free types, and
validation accepts unchanged. -/
def envTrivial : Env :=
  { runInit := fun _ v => Except.ok v,
    runValidate := fun _ v => Except.ok v,
    callMethod := fun _ _ => Except.error ("no such method"),
    runUnmarshal := fun _ _ => Except.error ("no unmarshaler"),
    runUnmarshalDict := fun _ _ => Except.error ("no dict unmarshaler") }

/-- The recursion budget used by all concrete examples (every concrete
compile and decode below terminates long before exhausting it). -/
def exFuel : Nat := 99

/-- End-to-end pipeline: build a JSON deserializer for a type with an
empty root label and decode one dictionary
(`MakeMapDeserializer` + `DeserializeDict`). -/
def pipelineJson (typ : Ty) (env : Env) (input : GoDict) : Except DErr GoValue :=
  match makeMapDeserializer exFuel "json" "" DriverId.json typ with
  | Except.error e => Except.error e
  | Except.ok op => outerDecode exFuel env op input

/-- The rendered message of a failing pipeline (empty when the decode
succeeds). -/
def pipelineJsonErrMsg (typ : Ty) (env : Env) (input : GoDict) : String :=
  match pipelineJson typ env input with
  | Except.error e => DErr.render e
  | Except.ok _ => ""

/-- The struct-plan level outcome of a JSON pipeline: compile the type,
then run its plan once on the given wire value, starting from a zero
slot. -/
def pipelinePlanRes (typ : Ty) (env : Env) (input : Option GoValue) : DRes :=
  match makeMapDeserializer exFuel "json" "" DriverId.json typ with
  | Except.error _ => { slot := GoValue.vnull, derr := Option.none }
  | Except.ok op => decodePlan exFuel env op.plan true (zeroValue typ) input

/-- Exported field metadata with the given tags (concrete example
helper). -/
def plainField (name : String) (tags : Tags) : FieldMeta :=
  { name := name, exported := true, anonymous := false, tags := tags }

/-! ### Claim C6: nested default propagation -/

/-- The record `B \x7b S string \x60default:"x"\x60 \x7d`. -/
def tyB6 : Ty :=
  Ty.strct "B"
    (Fields.cons (plainField "S" [("default", ["x"])]) (Ty.scalar ScalarKind.str)
      Fields.nil)
    Caps.none []

/-- The record `A \x7b B B \x60default:"\x7b\x7d"\x60 \x7d`. -/
def tyA6 : Ty :=
  Ty.strct "A"
    (Fields.cons (plainField "B" [("default", ["\x7b\x7d"])]) tyB6 Fields.nil)
    Caps.none []

/-- C6: decoding the empty dictionary against `A` succeeds and yields
`A\x7bB: B\x7bS: "x"\x7d\x7d`: the `\x7b\x7d` default decodes the nested
struct from an empty dictionary, inside which the inner scalar default
applies, so defaults propagate through nesting. -/
theorem c6_nested_default_propagation :
    pipelineJson tyA6 envTrivial GoDict.nil =
      Except.ok (GoValue.vstruct "A"
        (GoDict.cons "B"
          (GoValue.vstruct "B" (GoDict.cons "S" (GoValue.vstr "x") GoDict.nil))
          GoDict.nil)) := by
  rfl

/-! ### Claim C4: the missing-value message for a required field -/

/-- A struct `A` whose only field `B` is a required nested struct
`B \x7b S string \x7d` (no default, no orMethod, no pre-initialization). -/
def tyInner4 : Ty :=
  Ty.strct "B"
    (Fields.cons (plainField "S" []) (Ty.scalar ScalarKind.str) Fields.nil)
    Caps.none []

/-- The outer struct with the required struct-typed field. -/
def tyOuter4 : Ty :=
  Ty.strct "A" (Fields.cons (plainField "B" []) tyInner4 Fields.nil) Caps.none []

/-- C4, counterexample: decoding `\x7b\x7d` against a struct whose
required field is itself a struct fails, but the message is
`missing object value at A.B, expected B` — it does not contain the
substring `missing value at A.B` the claim requires. -/
theorem c4_counterexample :
    pipelineJsonErrMsg tyOuter4 envTrivial GoDict.nil =
      "missing object value at A.B, expected B" ∧
    strHas (pipelineJsonErrMsg tyOuter4 envTrivial GoDict.nil) "missing value at A.B"
      = false := by
  constructor
  · rfl
  · rfl

/-- The deserializer construction and decode of claim C4, for a struct
with a single required scalar field, with all names symbolic. -/
def c4Pipeline (root sname fname : String) (k : ScalarKind) : Except DErr GoValue :=
  match makeMapDeserializer exFuel "json" root DriverId.json
      (Ty.strct sname (Fields.cons (plainField fname []) (Ty.scalar k) Fields.nil)
        Caps.none []) with
  | Except.error e => Except.error e
  | Except.ok op => outerDecode exFuel envTrivial op GoDict.nil

/-- C4, amended: decoding the empty dictionary against a struct with a
required field fails.  When the required field is scalar the message is
exactly `missing value at <Type>.<Field>, expected <type>`, where
`<Type>` is the struct name prefixed by the root label when one was
given; when the required field is a struct (or map) the message reads
`missing object value at <Type>.<Field>, expected <type>` instead
(see the counterexample).  Stated for every root label and scalar
field kind. -/
theorem c4_missing_field_message (root : String) (k : ScalarKind) :
    c4Pipeline root "SimpleStruct" "SomeString" k =
      Except.error (DErr.emsg ("missing value at " ++
        ((if root = "" then "SimpleStruct" else root ++ "." ++ "SimpleStruct") ++
          "." ++ "SomeString") ++ ", expected " ++ typeName (Ty.scalar k))) := by
  cases k <;> rfl

/-! ### Claim C1: the fallback resolution order -/

/-- A struct `S` with one required pointer-to-slice field `F *[]int`. -/
def tyPS : Ty :=
  Ty.strct "S"
    (Fields.cons (plainField "F" []) (Ty.ptr (Ty.slice (Ty.scalar ScalarKind.int)))
      Fields.nil)
    Caps.none []

/-- If a value converts to a type it is not a wrapped nil. -/
theorem isNilAny_eq_false_of_canConvert (v : GoValue) (t : Ty)
    (h : canConvert v t = true) : isNilAny v = false := by
  cases v <;> simp_all [canConvert, isNilAny]

/-- On a convertible input the flat conversion tail is the identity
write. -/
theorem flatConvert_of_canConvert (env : Env) (fp tn : String) (t : Ty) (hU : Bool)
    (slot input : GoValue) (h : canConvert input t = true) :
    flatConvert env fp tn t hU slot input = { slot := input, derr := Option.none } := by
  unfold flatConvert
  rw [isNilAny_eq_false_of_canConvert input t h]
  simp [h]

/-- C1, counterexample: for the pointer-to-slice field plan compiled
from `S`, a decode with no input value falls through to the pointee
plan, whose missing-value error
`missing value at S.F*[], expected an array of S.F*` names the path
but not the expected type (the string `int` never occurs in it). -/
theorem c1_counterexample :
    pipelineJsonErrMsg tyPS envTrivial GoDict.nil =
      "missing value at S.F*[], expected an array of S.F*" ∧
    strHas (pipelineJsonErrMsg tyPS envTrivial GoDict.nil) "int" = false := by
  exact ⟨rfl, rfl⟩

/-- C1, amended: for scalar (flat), pointer and struct field plans, a
decode call with no input value resolves the field in the fixed order
(1) pre-initialized: the currently-held value is accepted with no
error; (2) else fixed default: the default value is used; (3) else
named constructor: it is invoked and a non-nil error aborts the decode
wrapped as `error in optional value at <path>`; (4) else the decode
fails with a missing-value error naming the path, which also names the
expected type for scalar and struct plans and for scalar pointees of
pointer plans (but not for slice pointees — see the counterexample). -/
theorem c1_resolution_order (n : Nat) (env : Env) (canIfc : Bool)
    (slot d : GoValue) (fp tn : String) (fieldTy : Ty) (hU : Bool)
    (dflt : Option GoValue) (orM : Option (String × String)) (cn mn msg : String)
    (elemTy ty : Ty) (ep : Plan) (nilD : Bool) (fp2 tn2 : String) (t2 : Ty) (hU2 : Bool)
    (path : String) (fps : FieldPlans) (zd preinit : Bool) (initData : InitMetadata) :
    -- flat plans
    (canConvert slot fieldTy = true →
      decodePlan (Nat.succ n) env (Plan.flat fp tn fieldTy hU dflt orM true) canIfc slot
        Option.none = { slot := slot, derr := Option.none }) ∧
    (canConvert d fieldTy = true →
      decodePlan (Nat.succ n) env (Plan.flat fp tn fieldTy hU (some d) orM false) canIfc
        slot Option.none = { slot := d, derr := Option.none }) ∧
    (env.callMethod cn mn = Except.error msg →
      decodePlan (Nat.succ n) env
        (Plan.flat fp tn fieldTy hU Option.none (some (cn, mn)) false) canIfc slot
        Option.none =
      { slot := slot, derr := some (DErr.custom ("orMethod") ("field")
          (DErr.ewrap ("error in optional value at " ++ fp ++ "\n\t * ")
            (DErr.emsg msg))) }) ∧
    (decodePlan (Nat.succ n) env (Plan.flat fp tn fieldTy hU Option.none Option.none false)
        canIfc slot Option.none =
      { slot := slot,
        derr := some (DErr.emsg ("missing value at " ++ fp ++ ", expected " ++ tn)) }) ∧
    -- pointer plans
    (decodePlan (Nat.succ n) env (Plan.ptrP fp elemTy ep nilD orM true) canIfc slot
        Option.none = { slot := slot, derr := Option.none }) ∧
    (decodePlan (Nat.succ n) env (Plan.ptrP fp elemTy ep true orM false) canIfc slot
        Option.none = { slot := slot, derr := Option.none }) ∧
    (env.callMethod cn mn = Except.error msg →
      decodePlan (Nat.succ n) env (Plan.ptrP fp elemTy ep false (some (cn, mn)) false)
        canIfc slot Option.none =
      { slot := slot, derr := some (DErr.custom ("orMethod") ("ptr")
          (DErr.ewrap ("error in optional value at " ++ fp ++ "\n\t * ")
            (DErr.emsg msg))) }) ∧
    (decodePlan (Nat.succ (Nat.succ n)) env
        (Plan.ptrP fp elemTy (Plan.flat fp2 tn2 t2 hU2 Option.none Option.none false)
          false Option.none false) canIfc slot Option.none =
      { slot := slot,
        derr := some (DErr.emsg ("missing value at " ++ fp2 ++ ", expected " ++ tn2)) }) ∧
    -- struct plans
    ((zd || preinit) = true →
      decodePlan (Nat.succ n) env (Plan.structP path ty fps zd orM initData preinit)
        canIfc slot Option.none =
      decodePlan (Nat.succ n) env (Plan.structP path ty fps zd orM initData preinit)
        canIfc slot (some GoValue.vempty)) ∧
    (initData.canInitSelf = false → env.callMethod cn mn = Except.error msg →
      decodePlan (Nat.succ n) env
        (Plan.structP path ty fps false (some (cn, mn)) initData false) canIfc slot
        Option.none =
      { slot := slot, derr := some (DErr.custom ("orMethod") ("struct")
          (DErr.ewrap ("error in optional value at " ++ path ++ "\n\t * ")
            (DErr.emsg msg))) }) ∧
    (initData.canInitSelf = false →
      decodePlan (Nat.succ n) env
        (Plan.structP path ty fps false Option.none initData false) canIfc slot
        Option.none =
      { slot := slot, derr := some (DErr.emsg ("missing object value at " ++ path ++
          ", expected " ++ typeName ty)) }) := by
  refine ⟨?_, ?_, ?_, ?_, ?_, ?_, ?_, ?_, ?_, ?_, ?_⟩
  · intro h
    simp only [decodePlan]
    cases canIfc <;> simp [flatConvert_of_canConvert env fp tn fieldTy hU slot slot h]
  · intro h
    simp only [decodePlan]
    simp [flatConvert_of_canConvert env fp tn fieldTy hU slot d h]
  · intro h
    simp [decodePlan, h]
  · simp [decodePlan]
  · simp [decodePlan]
  · simp [decodePlan]
  · intro h
    simp [decodePlan, h]
  · simp [decodePlan]
  · intro h
    simp only [decodePlan]
    cases hc : initData.canInitSelf with
    | true =>
        simp only [hc]
        cases env.runInit (structName ty) (zeroValue ty) <;> simp
    | false => simp [hc, h]
  · intro hc h
    simp [decodePlan, hc, h]
  · intro hc
    simp [decodePlan, hc]

/-- C1 witness: the amended resolution order at concrete inputs,
discharging each hypothesis. -/
theorem c1_resolution_order_witness :
    decodePlan 1 envTrivial
        (Plan.flat ("S.F") ("int") (Ty.scalar ScalarKind.int) false
          (some (GoValue.vint 7)) Option.none false) true (GoValue.vint 0)
        Option.none = { slot := GoValue.vint 7, derr := Option.none } ∧
    decodePlan 1 envTrivial
        (Plan.flat ("S.F") ("int") (Ty.scalar ScalarKind.int) false Option.none
          Option.none false) true (GoValue.vint 0) Option.none =
      { slot := GoValue.vint 0,
        derr := some (DErr.emsg ("missing value at S.F, expected int")) } := by
  constructor
  · exact (c1_resolution_order 0 envTrivial true (GoValue.vint 0) (GoValue.vint 7)
      ("S.F") ("int") (Ty.scalar ScalarKind.int) false Option.none Option.none
      ("") ("") ("") (Ty.scalar ScalarKind.int) (Ty.scalar ScalarKind.int)
      (Plan.flat ("") ("") (Ty.scalar ScalarKind.int) false Option.none Option.none false)
      false ("") ("") (Ty.scalar ScalarKind.int) false ("") FieldPlans.nil false false
      { canInitSelf := false, canDriverUnmarshal := false, canUnmarshalFromDict := false,
        willPreinit := false }).2.1 (by rfl)
  · exact (c1_resolution_order 0 envTrivial true (GoValue.vint 0) (GoValue.vint 7)
      ("S.F") ("int") (Ty.scalar ScalarKind.int) false Option.none Option.none
      ("") ("") ("") (Ty.scalar ScalarKind.int) (Ty.scalar ScalarKind.int)
      (Plan.flat ("") ("") (Ty.scalar ScalarKind.int) false Option.none Option.none false)
      false ("") ("") (Ty.scalar ScalarKind.int) false ("") FieldPlans.nil false false
      { canInitSelf := false, canDriverUnmarshal := false, canUnmarshalFromDict := false,
        willPreinit := false }).2.2.2.1

/-! ### Claim C2: validation errors -/

/-- A struct `V \x7b SomeEmail string \x7d` whose pointer type implements
`Validator`. -/
def tyV : Ty :=
  Ty.strct "V"
    (Fields.cons (plainField "SomeEmail" []) (Ty.scalar ScalarKind.str) Fields.nil)
    { Caps.none with validatorCap := some Receiver.byPtr } []

/-- An environment whose `Validate` hook rejects every `V` with the
message `Invalid email`. -/
def envV2 : Env :=
  { envTrivial with
    runValidate := fun nm v =>
      if nm = "V" then Except.error ("Invalid email") else Except.ok v }

/-- The input dictionary of the C2 counterexample. -/
def c2Input : GoDict := GoDict.cons "SomeEmail" (GoValue.vstr "someone+example.com") GoDict.nil

/-- The staged struct value the C2 decode builds before validation. -/
def c2Staged : GoValue :=
  GoValue.vstruct "V" (GoDict.cons "SomeEmail" (GoValue.vstr "someone+example.com") GoDict.nil)

/-- C2, counterexample: when `Validate` rejects, the decode does return
a validation error carrying the path, but the output slot holds the
staged struct value — `result = reflect.Zero(typ)` in the deferred
function only rebinds the local variable after `outPtr.Set(result)`
already ran, so the staged value is **not** replaced by the zero value
in the output slot. -/
theorem c2_counterexample :
    pipelinePlanRes tyV envV2 (some (GoValue.vdict c2Input)) =
      { slot := c2Staged, derr := some (DErr.validationE "V" "Invalid email") } ∧
    gvBeq c2Staged (zeroValue tyV) = false := by
  exact ⟨rfl, rfl⟩

/-- C2, amended: a validation failure yields a `validation.Error` that
wraps the user message and carries the accumulated path, and is
structurally distinguishable from other decode errors; the output slot
keeps the staged struct value (only the local staging reference is
zeroed, after the slot was already written — callers discard the slot
because the decode errors); and when a field-level decode error has
already occurred, `Validate` is not invoked and the original error is
returned unmasked. -/
theorem c2_validation_behavior (n : Nat) (env : Env) (canIfc : Bool)
    (slot written staging : GoValue) (path cause : String) (ty : Ty)
    (fps : FieldPlans) (zd preinit : Bool) (orM : Option (String × String))
    (initData : InitMetadata) (d : GoDict) (e : DErr) :
    -- the struct body that decodes fields hands the staging value to the
    -- deferred validation step
    (initData.canInitSelf = false → initData.canDriverUnmarshal = false →
      initData.canUnmarshalFromDict = false →
      decodeFields n env fps (zeroValue ty) d = Except.ok staging →
      decodePlan (Nat.succ n) env (Plan.structP path ty fps zd orM initData preinit)
        canIfc slot (some (GoValue.vdict d)) =
      structDeferred env path ty staging staging) ∧
    -- a rejecting validator wraps the cause with the path and leaves the
    -- written value in the slot
    ((structCaps ty).validatorCap.isSome = true →
      env.runValidate (structName ty) staging = Except.error cause →
      structDeferred env path ty written staging =
        { slot := written, derr := some (DErr.validationE path cause) }) ∧
    -- the validation error is structurally distinguishable
    (DErr.isValidation (DErr.validationE path cause) = true ∧
     DErr.isValidation (DErr.emsg cause) = false) ∧
    -- an earlier field error is returned unmasked, for every validator
    -- behavior
    (initData.canInitSelf = false → initData.canDriverUnmarshal = false →
      initData.canUnmarshalFromDict = false →
      decodeFields n env fps (zeroValue ty) d = Except.error e →
      decodePlan (Nat.succ n) env (Plan.structP path ty fps zd orM initData preinit)
        canIfc slot (some (GoValue.vdict d)) =
      { slot := slot, derr := some e }) := by
  refine ⟨?_, ?_, ⟨rfl, rfl⟩, ?_⟩
  · intro h1 h2 h3 h4
    simp [decodePlan, h1, h2, h3, h4, asDict]
  · intro hv hr
    simp [structDeferred, hv, hr]
  · intro h1 h2 h3 h4
    simp [decodePlan, h1, h2, h3, h4, asDict]

/-- C2 witness: the amended statement at the concrete validator
example. -/
theorem c2_validation_behavior_witness :
    decodePlan 6 envV2
        (Plan.structP ("V") tyV
          (FieldPlans.cons ("SomeEmail") ("SomeEmail") true true false
            (Plan.flat ("V.SomeEmail") ("string") (Ty.scalar ScalarKind.str) false
              Option.none Option.none false) FieldPlans.nil)
          false Option.none
          { canInitSelf := false, canDriverUnmarshal := false,
            canUnmarshalFromDict := false, willPreinit := false } false) true
        (zeroValue tyV) (some (GoValue.vdict c2Input)) =
      { slot := c2Staged, derr := some (DErr.validationE "V" "Invalid email") } := by
  have h := c2_validation_behavior 5 envV2 true (zeroValue tyV) c2Staged c2Staged
    ("V") ("Invalid email") tyV
    (FieldPlans.cons ("SomeEmail") ("SomeEmail") true true false
      (Plan.flat ("V.SomeEmail") ("string") (Ty.scalar ScalarKind.str) false
        Option.none Option.none false) FieldPlans.nil)
    false false Option.none
    { canInitSelf := false, canDriverUnmarshal := false, canUnmarshalFromDict := false,
      willPreinit := false } c2Input (DErr.emsg (""))
  rw [h.1 rfl rfl rfl (by rfl), h.2.1 (by rfl) (by rfl)]

/-! ### Claim C3: the combined plan tries structured first -/

/-- C3: a combined plan runs the structured plan first; on success that
result stands; a validation-kind failure is returned as is and the flat
plan is never tried (the equation holds for every flat plan); any other
failure falls through to the flat plan, whose success makes the whole
decode succeed; if the flat plan also fails, the structured error is
returned. -/
theorem c3_combined_tries_structured_first (n : Nat) (env : Env) (s f : Plan)
    (canIfc : Bool) (slot : GoValue) (input : Option GoValue) (e : DErr) (rs : DRes)
    (hs : decodePlan n env s canIfc slot input = rs) :
    (rs.derr = Option.none →
      decodePlan (Nat.succ n) env (Plan.combined s f) canIfc slot input = rs) ∧
    (rs.derr = some e → DErr.isValidation e = true →
      decodePlan (Nat.succ n) env (Plan.combined s f) canIfc slot input = rs) ∧
    (rs.derr = some e → DErr.isValidation e = false →
      (decodePlan n env f canIfc rs.slot input).derr = Option.none →
      decodePlan (Nat.succ n) env (Plan.combined s f) canIfc slot input =
        { slot := (decodePlan n env f canIfc rs.slot input).slot,
          derr := Option.none }) ∧
    (rs.derr = some e → DErr.isValidation e = false →
      (decodePlan n env f canIfc rs.slot input).derr.isSome = true →
      decodePlan (Nat.succ n) env (Plan.combined s f) canIfc slot input =
        { slot := (decodePlan n env f canIfc rs.slot input).slot, derr := some e }) := by
  refine ⟨?_, ?_, ?_, ?_⟩
  · intro h
    simp [decodePlan, hs, h]
  · intro h hv
    simp [decodePlan, hs, h, hv]
  · intro h hv hf
    simp [decodePlan, hs, h, hv, hf]
  · intro h hv hf
    rcases hfe : (decodePlan n env f canIfc rs.slot input).derr with _ | e2
    · rw [hfe] at hf
      simp at hf
    · simp [decodePlan, hs, h, hv, hfe]

/-- C3 witness: a structured missing-value failure (not a validation
error) falls through to a flat plan whose default succeeds. -/
theorem c3_combined_tries_structured_first_witness :
    decodePlan 2 envTrivial
        (Plan.combined
          (Plan.flat ("p") ("int") (Ty.scalar ScalarKind.int) false Option.none
            Option.none false)
          (Plan.flat ("p") ("int") (Ty.scalar ScalarKind.int) false
            (some (GoValue.vint 3)) Option.none false)) true (GoValue.vint 0)
        Option.none = { slot := GoValue.vint 3, derr := Option.none } := by
  have h := c3_combined_tries_structured_first 1 envTrivial
    (Plan.flat ("p") ("int") (Ty.scalar ScalarKind.int) false Option.none Option.none
      false)
    (Plan.flat ("p") ("int") (Ty.scalar ScalarKind.int) false (some (GoValue.vint 3))
      Option.none false) true (GoValue.vint 0) Option.none
    (DErr.emsg ("missing value at p, expected int"))
    { slot := GoValue.vint 0,
      derr := some (DErr.emsg ("missing value at p, expected int")) } (by rfl)
  exact h.2.2.1 (by rfl) (by rfl) (by rfl)

/-! ### Claim C5: supported `default` literals are narrow and exact -/

/-- C5: deserializer construction fails — no plan is returned — whenever
the `default` tag literal is anything other than `nil` on a pointer
field, `[]` on a slice or array field, `\x7b\x7d` on a struct or map
field, or a literal the scalar parser accepts on a scalar field.  For
slices and arrays the default literal is checked before anything else,
so the error is exact. -/
theorem c5_default_literal_checks (n : Nat) (fp : String) (options : InnerOptions)
    (ftags : Tags) (container : Ty) (preinit : Bool) (st : KVState) (d : String)
    (e fieldTy : Ty) (nm : String) (fs : Fields) (cs : Caps)
    (ms : List (String × MethodSig)) (sk : Bool) (k : ScalarKind)
    (parse : String → Except String GoValue) (pe : String) :
    (Tags.default ftags = some d → d ≠ "nil" →
      (compilePtr (Nat.succ n) fp (Ty.ptr e) options ftags container preinit st).2.isOk
        = false) ∧
    (Tags.default ftags = some d → d ≠ "[]" →
      compileSlice (Nat.succ n) fp fieldTy options ftags container preinit st =
        (st, Except.error (DErr.emsg ("at " ++ fp ++
          ", invalid `default` value. The only supported `default` value for arrays or slices is \"[]\", got: "
          ++ d)))) ∧
    (Tags.default ftags = some d → d ≠ "\x7b\x7d" →
      (compileStruct (Nat.succ n) fp (Ty.strct nm fs cs ms) options ftags container
        preinit st).2.isOk = false) ∧
    (Tags.default ftags = some d → d ≠ "\x7b\x7d" →
      (compileMap (Nat.succ n) fp (Ty.mapTy sk e) options ftags container preinit
        st).2.isOk = false) ∧
    (Tags.default ftags = some d → lookupParser (Ty.scalar k) = some parse →
      parse d = Except.error pe →
      (compileFlat fp (Ty.scalar k) options ftags container preinit st).2.isOk
        = false) ∧
    (Tags.default ftags = some d → lookupParser (Ty.scalar k) = some parse →
      parse d = Except.error pe →
      (compileField (Nat.succ n) fp (Ty.scalar k) options ftags container preinit false
        st).2.isOk = false) ∧
    (Tags.default ftags = some d → lookupParser fieldTy = Option.none →
      (compileFlat fp fieldTy options ftags container preinit st).2.isOk = false) := by
  have hptrok : ∀ t2, canInterface (Ty.scalar k) (fun c => c.validatorCap)
      ("validation.Validator") = Except.ok t2 → t2 = false := by
    intro t2 h
    simpa [canInterface, tyImplements, ptrTyImplements] using h
  refine ⟨?_, ?_, ?_, ?_, ?_, ?_, ?_⟩
  · intro hd hne
    simp only [compilePtr]
    cases hq : driverEnter options st fp (Ty.ptr e) with
    | error e1 => simp [hq, Except.isOk, Except.toBool]
    | ok st1 =>
        rcases hq2 : compileField n (fp ++ "*") e options Tags.empty (Ty.ptr e)
            (preinit || Tags.isPreinit ftags) false st1 with ⟨st2, r⟩
        cases r with
        | error e2 => simp [hq, hq2, Except.isOk, Except.toBool]
        | ok p => simp [hq, hq2, checkOnlyDefault, hd, hne, Except.isOk, Except.toBool]
  · intro hd hne
    simp [compileSlice, checkOnlyDefault, hd, hne]
  · intro hd hne
    simp only [compileStruct]
    cases hq : mkInitData (Ty.strct nm fs cs ms) options with
    | error e1 => simp [hq, Except.isOk, Except.toBool]
    | ok initData =>
        rcases hq2 : compileFields n fp (Ty.strct nm fs cs ms) options initData preinit
            st fs with ⟨st2, r⟩
        cases r with
        | error e2 => simp [hq, hq2, Except.isOk, Except.toBool]
        | ok fps => simp [hq, hq2, checkOnlyDefault, hd, hne, Except.isOk, Except.toBool]
  · intro hd hne
    simp only [compileMap]
    cases hq : driverEnter options st fp (Ty.mapTy sk e) with
    | error e1 => simp [hq, Except.isOk, Except.toBool]
    | ok st1 =>
        cases sk with
        | false => simp [hq, Except.isOk, Except.toBool]
        | true =>
            cases hq1 : mkInitData (Ty.mapTy true e) options with
            | error e1 => simp [hq, hq1, Except.isOk, Except.toBool]
            | ok initMeta =>
                rcases hq2 : compileField n (fp ++ "[]") e options Tags.empty
                    (Ty.mapTy true e) initMeta.willPreinit false st1 with ⟨st2, r⟩
                cases r with
                | error e2 => simp [hq, hq1, hq2, Except.isOk, Except.toBool]
                | ok p => simp [hq, hq1, hq2, checkOnlyDefault, hd, hne, Except.isOk, Except.toBool]
  · intro hd hp hpe
    simp only [compileFlat]
    cases hq : driverEnter options st fp (Ty.scalar k) with
    | error e1 => simp [hq, Except.isOk, Except.toBool]
    | ok st1 =>
        simp [hq, canInterface, tyImplements, ptrTyImplements, hd, hp, hpe, Except.isOk, Except.toBool]
  · intro hd hp hpe
    simp only [compileField]
    cases hq : driverEnter options st fp (Ty.scalar k) with
    | error e1 => simp [hq, Except.isOk, Except.toBool]
    | ok st1 =>
        rcases hq2 : compileFlat fp (Ty.scalar k) options ftags container preinit st1
            with ⟨st3, r⟩
        cases r with
        | error e2 => simp [hq, hq2, Except.isOk, Except.toBool]
        | ok p =>
            exfalso
            revert hq2
            simp only [compileFlat]
            cases hq3 : driverEnter options st1 fp (Ty.scalar k) with
            | error e1 => simp [hq3]
            | ok st4 =>
                simp [hq3, canInterface, tyImplements, ptrTyImplements, hd, hp, hpe]
  · intro hd hp
    simp only [compileFlat]
    cases hq : driverEnter options st fp fieldTy with
    | error e1 => simp [hq, Except.isOk, Except.toBool]
    | ok st1 =>
        cases hq2 : canInterface fieldTy (fun c => c.validatorCap)
            ("validation.Validator") with
        | error e1 => simp [hq, hq2, Except.isOk, Except.toBool]
        | ok b => simp [hq, hq2, hd, hp, Except.isOk, Except.toBool]

/-- C5 witness: a pointer field tagged `default:"0"` and a scalar field
tagged `default:"zzz"` are both rejected at construction. -/
theorem c5_default_literal_checks_witness :
    (compilePtr 1 ("S.F") (Ty.ptr (Ty.scalar ScalarKind.int))
      { renamingTagName := "json", driver := DriverId.json } [("default", ["0"])]
      (Ty.scalar ScalarKind.int) false KVState.start).2.isOk = false ∧
    (compileField 1 ("S.G") (Ty.scalar ScalarKind.int)
      { renamingTagName := "json", driver := DriverId.json } [("default", ["zzz"])]
      (Ty.scalar ScalarKind.int) false false KVState.start).2.isOk = false := by
  constructor
  · exact (c5_default_literal_checks 0 ("S.F")
      { renamingTagName := "json", driver := DriverId.json } [("default", ["0"])]
      (Ty.scalar ScalarKind.int) false KVState.start ("0") (Ty.scalar ScalarKind.int)
      (Ty.scalar ScalarKind.int) ("") Fields.nil Caps.none [] false ScalarKind.int
      goAtoi ("")).1 (by rfl) (by decide)
  · exact (c5_default_literal_checks 0 ("S.G")
      { renamingTagName := "json", driver := DriverId.json } [("default", ["zzz"])]
      (Ty.scalar ScalarKind.int) false KVState.start ("zzz") (Ty.scalar ScalarKind.int)
      (Ty.scalar ScalarKind.int) ("") Fields.nil Caps.none [] false ScalarKind.int
      goAtoi ("strconv.Atoi: parsing \"zzz\": invalid syntax")).2.2.2.2.2.1 (by rfl)
      (by rfl) (by rfl)

/-! ### Claim C7: the List driver rejects nested structs at compile time -/

/-- The record `Pair[int,int]`. -/
def tyPair7 : Ty :=
  Ty.strct "Pair[int,int]"
    (Fields.cons (plainField "Left" []) (Ty.scalar ScalarKind.int)
      (Fields.cons (plainField "Right" []) (Ty.scalar ScalarKind.int) Fields.nil))
    Caps.none []

/-- A struct with a slice-of-records field. -/
def tySliceRec7 : Ty :=
  Ty.strct "SimpleArrayStruct"
    (Fields.cons (plainField "Data" []) (Ty.slice tyPair7) Fields.nil)
    Caps.none []

/-- The outcome of building a KVList deserializer for the
slice-of-records type. -/
def c7KvRes : Except DErr OuterPlan := makeKVListDeserializer exFuel "query" "" tySliceRec7

/-- The rendered construction error of the KVList deserializer. -/
def c7KvMsg : String :=
  match c7KvRes with
  | Except.error e => DErr.render e
  | Except.ok _ => ""

set_option maxRecDepth 4000 in
/-- C7, counterexample: the KVList construction does fail, but its
message never contains the claimed text
`this type of extractor does not support nested structs`. -/
theorem c7_counterexample :
    strHas c7KvMsg "this type of extractor does not support nested structs" = false ∧
    c7KvRes.isOk = false := by
  exact ⟨rfl, rfl⟩

set_option maxRecDepth 4000 in
/-- C7, amended: constructing a KVList deserializer for a struct with a
slice-of-records field fails at construction time, with the driver
`Enter` error `KVList deserialization expects a struct of slices of
trivially deserializable types, but at <path>, got <type>` (wrapped in
the field-level construction context), while the Dict (JSON) driver
builds a deserializer for the same type. -/
theorem c7_kvlist_rejects_nested_structs :
    c7KvMsg =
      "could not generate a deserializer for SimpleArrayStruct.Data with type :\n\t * failed to generate a deserializer for SimpleArrayStruct.Data\n\t * KVList deserialization expects a struct of slices of trivially deserializable types, but at SimpleArrayStruct.Data[], got Pair[int,int]" ∧
    (makeMapDeserializer exFuel "json" "" DriverId.json tySliceRec7).isOk = true := by
  exact ⟨rfl, rfl⟩

/-! ### Claim C8: `default` and `orMethod` are mutually exclusive -/

/-- C8: a field declaring both `default` and `orMethod` makes the
construction of the struct deserializer fail immediately — before any
plan for the field is built, so the failure can never surface during a
decode call — with a configuration error naming the struct and the
field. -/
theorem c8_default_orMethod_conflict (n : Nat) (path : String) (parent : Ty)
    (options : InnerOptions) (initData : InitMetadata) (structPre : Bool) (st : KVState)
    (meta : FieldMeta) (fty : Ty) (rest : Fields) (d m : String) (nm : String)
    (caps : Caps) (ms : List (String × MethodSig)) (tags : Tags) (container : Ty)
    (preinit : Bool)
    (h1 : Tags.default meta.tags = some d) (h2 : Tags.methodName meta.tags = some m) :
    compileFields (Nat.succ n) path parent options initData structPre st
        (Fields.cons meta fty rest) =
      (st, Except.error (DErr.emsg ("struct " ++ path ++ " contains a field \"" ++
        meta.name ++
        "\" that has both a `default` and a `orMethod` declaration. Please specify only one"))) ∧
    (mkInitData (Ty.strct nm (Fields.cons meta fty rest) caps ms) options =
        Except.ok initData →
      (compileStruct (Nat.succ (Nat.succ n)) path
        (Ty.strct nm (Fields.cons meta fty rest) caps ms) options tags container preinit
        st).2.isOk = false) := by
  constructor
  · simp [compileFields, h1, h2]
  · intro hmeta
    simp [compileStruct, hmeta, compileFields, h1, h2, Except.isOk, Except.toBool]

/-- C8 witness: a concrete field with both tags. -/
theorem c8_default_orMethod_conflict_witness :
    compileFields 1 ("S") (Ty.scalar ScalarKind.int)
        { renamingTagName := "json", driver := DriverId.json }
        { canInitSelf := false, canDriverUnmarshal := false,
          canUnmarshalFromDict := false, willPreinit := false } false KVState.start
        (Fields.cons (plainField "F" [("default", ["1"]), ("orMethod", ["MakeF"])])
          (Ty.scalar ScalarKind.int) Fields.nil) =
      (KVState.start, Except.error (DErr.emsg
        ("struct S contains a field \"F\" that has both a `default` and a `orMethod` declaration. Please specify only one"))) := by
  exact (c8_default_orMethod_conflict 0 ("S") (Ty.scalar ScalarKind.int)
    { renamingTagName := "json", driver := DriverId.json }
    { canInitSelf := false, canDriverUnmarshal := false, canUnmarshalFromDict := false,
      willPreinit := false } false KVState.start
    (plainField "F" [("default", ["1"]), ("orMethod", ["MakeF"])])
    (Ty.scalar ScalarKind.int) Fields.nil ("1") ("MakeF") ("") Caps.none []
    Tags.empty (Ty.scalar ScalarKind.int) false (by rfl) (by rfl)).1

/-! ### Claim C9: DeserializeList skips non-dictionaries -/

/-- C9: `DeserializeList` decodes exactly the entries whose `AsDict`
succeeds: an entry that is not a dictionary produces neither an output
element nor an error; a dictionary entry that decodes becomes the next
output element; a dictionary entry whose decode fails aborts the whole
call with an error naming that entry's index (the Go method then
returns the empty slice alongside this error). -/
theorem c9_list_skips_non_dicts (fuel : Nat) (env : Env) (op : OuterPlan) (i : Nat)
    (entry : GoValue) (rest : List GoValue) (dct : GoDict) (v : GoValue)
    (tail : List GoValue) (e : DErr) :
    (asDict entry = Option.none →
      deserializeListFrom fuel env op i (entry :: rest) =
        deserializeListFrom fuel env op (i + 1) rest) ∧
    (asDict entry = some dct → outerDecode fuel env op dct = Except.ok v →
      deserializeListFrom fuel env op (i + 1) rest = Except.ok tail →
      deserializeListFrom fuel env op i (entry :: rest) = Except.ok (v :: tail)) ∧
    (asDict entry = some dct → outerDecode fuel env op dct = Except.error e →
      deserializeListFrom fuel env op i (entry :: rest) =
        Except.error (DErr.ewrap ("failed to deserialize entry " ++ toString i ++
          ": \n\t * ") e)) := by
  refine ⟨?_, ?_, ?_⟩
  · intro h
    simp [deserializeListFrom, h]
  · intro h1 h2 h3
    simp [deserializeListFrom, h1, h2, h3]
  · intro h1 h2
    simp [deserializeListFrom, h1, h2]

/-- An outer plan decoding any dictionary to the empty struct `T`. -/
def opEmpty9 : OuterPlan :=
  { path := "T", ty := Ty.strct "T" Fields.nil Caps.none [],
    canInitSelf := false,
    plan := Plan.structP ("T") (Ty.strct "T" Fields.nil Caps.none []) FieldPlans.nil
      false Option.none
      { canInitSelf := false, canDriverUnmarshal := false, canUnmarshalFromDict := false,
        willPreinit := false } false }

/-- An outer plan whose decode always fails (a required int field). -/
def opReq9 : OuterPlan :=
  { path := "R", ty := Ty.strct "R" Fields.nil Caps.none [],
    canInitSelf := false,
    plan := Plan.structP ("R") (Ty.strct "R" Fields.nil Caps.none [])
      (FieldPlans.cons ("A") ("A") true true false
        (Plan.flat ("R.A") ("int") (Ty.scalar ScalarKind.int) false Option.none
          Option.none false) FieldPlans.nil)
      false Option.none
      { canInitSelf := false, canDriverUnmarshal := false, canUnmarshalFromDict := false,
        willPreinit := false } false }

/-- C9 witness: a scalar entry is skipped, a dictionary entry decodes,
and a failing dictionary entry aborts with its index in the message. -/
theorem c9_list_skips_non_dicts_witness :
    deserializeListFrom exFuel envTrivial opEmpty9 0
        [GoValue.vint 1, GoValue.vdict GoDict.nil] =
      Except.ok [GoValue.vstruct "T" GoDict.nil] ∧
    deserializeListFrom exFuel envTrivial opReq9 0
        [GoValue.vint 1, GoValue.vdict GoDict.nil] =
      Except.error (DErr.ewrap ("failed to deserialize entry " ++ toString 1 ++
        ": \n\t * ")
        (DErr.emsg ("missing value at R.A, expected int"))) := by
  constructor
  · rw [(c9_list_skips_non_dicts exFuel envTrivial opEmpty9 0 (GoValue.vint 1)
        [GoValue.vdict GoDict.nil] GoDict.nil (GoValue.vstruct "T" GoDict.nil) []
        (DErr.emsg (""))).1 (by rfl)]
    exact (c9_list_skips_non_dicts exFuel envTrivial opEmpty9 1 (GoValue.vdict GoDict.nil)
      [] GoDict.nil (GoValue.vstruct "T" GoDict.nil) [] (DErr.emsg (""))).2.1 (by rfl)
      (by rfl) (by rfl)
  · rw [(c9_list_skips_non_dicts exFuel envTrivial opReq9 0 (GoValue.vint 1)
        [GoValue.vdict GoDict.nil] GoDict.nil (GoValue.vstruct "T" GoDict.nil) []
        (DErr.emsg ("missing value at R.A, expected int"))).1 (by rfl)]
    exact (c9_list_skips_non_dicts exFuel envTrivial opReq9 1 (GoValue.vdict GoDict.nil)
      [] GoDict.nil (GoValue.vstruct "T" GoDict.nil) []
      (DErr.emsg ("missing value at R.A, expected int"))).2.2 (by rfl) (by rfl)

/-! ### Claim C10: kvlist value multiplicity -/

/-- The struct `T \x7b A int \x7d` used by the concrete C10 cases. -/
def tyT10 : Ty :=
  Ty.strct "T"
    (Fields.cons (plainField "A" []) (Ty.scalar ScalarKind.int) Fields.nil)
    Caps.none []

/-- End-to-end KVList pipeline for `T`. -/
def c10Pipeline (input : List (String × List String)) : Except DErr GoValue :=
  match makeKVListDeserializer exFuel "query" "" tyT10 with
  | Except.error e => Except.error e
  | Except.ok op => deserializeKVList exFuel envTrivial "query" op input

/-- C10: during `deListMapReflect`, a non-slice, non-array,
non-flattened field with two or more values errors with
`cannot fit <N> elements into a single entry of field <T>.<F>`; exactly
one value is passed through as a single string; zero values leave the
normalized map unchanged, so the decode then treats the field as absent
(falling back to default / orMethod / missing-value handling, here the
missing-value error). -/
theorem c10_kvlist_multiplicity (renTag tname : String) (meta : FieldMeta) (fty : Ty)
    (rest : Fields) (outMap : List (String × KVVal))
    (inMap : List (String × List String)) (pub v v2 : String) (vl : List String)
    (hns : isSliceOrArrayKind fty = false)
    (hnf : (isStructKind fty && (Tags.isFlat meta.tags || meta.anonymous)) = false)
    (hpub : (Tags.publicFieldName meta.tags renTag).getD meta.name = pub) :
    (kvListLookup inMap pub = [] →
      deListFields renTag (Fields.cons meta fty rest) tname outMap inMap =
        deListFields renTag rest tname outMap inMap) ∧
    (kvListLookup inMap pub = [v] →
      deListFields renTag (Fields.cons meta fty rest) tname outMap inMap =
        deListFields renTag rest tname (kvSet outMap pub (KVVal.single v)) inMap) ∧
    (kvListLookup inMap pub = v :: v2 :: vl →
      deListFields renTag (Fields.cons meta fty rest) tname outMap inMap =
        Except.error (DErr.emsg ("cannot fit " ++ toString (vl.length + 2) ++
          " elements into a single entry of field " ++ tname ++ "." ++ meta.name))) ∧
    -- the end-to-end pipeline on the concrete type
    (c10Pipeline [("A", ["1", "2"])] =
      Except.error (DErr.ewrap
        ("error attempting to deserialize from a list of entries:\n\t * ")
        (DErr.emsg ("cannot fit 2 elements into a single entry of field T.A")))) ∧
    (c10Pipeline [("A", ["17"])] =
      Except.ok (GoValue.vstruct "T" (GoDict.cons "A" (GoValue.vint 17) GoDict.nil))) ∧
    (c10Pipeline [] =
      Except.error (DErr.emsg ("missing value at T.A, expected int"))) := by
  refine ⟨?_, ?_, ?_, by rfl, by rfl, by rfl⟩
  · intro h
    simp [deListFields, hpub, hns, hnf, h]
  · intro h
    simp [deListFields, hpub, hns, hnf, h]
  · intro h
    simp [deListFields, hpub, hns, hnf, h]

/-- C10 witness: the generic multiplicity rules at a concrete field. -/
theorem c10_kvlist_multiplicity_witness :
    deListFields ("query") (Fields.cons (plainField "A" []) (Ty.scalar ScalarKind.int)
        Fields.nil) ("T") [] [("A", ["1", "2", "3"])] =
      Except.error (DErr.emsg
        ("cannot fit 3 elements into a single entry of field T.A")) := by
  exact (c10_kvlist_multiplicity ("query") ("T") (plainField "A" [])
    (Ty.scalar ScalarKind.int) Fields.nil [] [("A", ["1", "2", "3"])] ("A") ("1") ("2")
    (["3"]) (by rfl) (by rfl) (by rfl)).2.2.1 (by rfl)

end Godasse
